import Mathlib

/-!
Verification of the bisection root-finding routine `bissecao` from
`metodo_bissecao.py`.

The Python source is shallowly embedded over `ℚ` (exact rational
arithmetic standing in for IEEE doubles).  The iteration loop
`for k in range(1, max_iter + 1)` is modelled by a fuel-indexed
recursive function `bissecaoLoop` that threads the mutable locals
`a`, `b`, `fa`, `fb` and the `history` list exactly as the source does.
The dual return shape (`raiz` alone versus `(raiz, hist)`) is modelled
by `PyReturn`, and the `raise ValueError(...)` by `Except.error`.
The `verbose` flag only drives a `print` in the source, so it is an
argument that the computation never reads.
-/

/-- Python's built-in `abs` on a real value: the magnitude.
Written as a conditional so that it evaluates by `simp`;
`pyAbs_eq_abs` identifies it with `|·|`. -/
def pyAbs (q : ℚ) : ℚ := if q < 0 then -q else q

/-- One history entry `(k, a, b, x, f(x))` appended by
`history.append((k, a, b, x, fx))` in the source. -/
structure IterationRecord where
  k : Nat
  a : ℚ
  b : ℚ
  x : ℚ
  fx : ℚ
deriving DecidableEq, Repr

/-- The Python function returns either the root alone or the pair
`(raiz, hist)` when `return_history` is true. -/
inductive PyReturn where
  | root (r : ℚ)
  | rootHist (r : ℚ) (hist : List IterationRecord)
deriving DecidableEq, Repr

/-- The loop `for k in range(1, max_iter + 1)` of `bissecao`.
`fuel` is the number of remaining iterations, `k` the current iteration
index; `a`, `b`, `fa`, `fb` are the working variables and `hist` the
accumulated history.  When the fuel is exhausted the source returns
`(a + b) / 2.0` of the final interval. -/
def bissecaoLoop (f : ℚ → ℚ) (tol : ℚ) :
    Nat → Nat → ℚ → ℚ → ℚ → ℚ → List IterationRecord →
    ℚ × List IterationRecord
  | 0, _, a, b, _, _, hist => ((a + b) / 2, hist)
  | fuel + 1, k, a, b, fa, fb, hist =>
    let x := (a + b) / 2
    let fx := f x
    let hist' := hist ++ [⟨k, a, b, x, fx⟩]
    if pyAbs fx < tol ∨ (b - a) / 2 < tol then
      (x, hist')
    else if fa * fx < 0 then
      bissecaoLoop f tol fuel (k + 1) a x fa fx hist'
    else
      bissecaoLoop f tol fuel (k + 1) x b fx fb hist'

/-- The body of `bissecao` before packaging the dual return shape:
fast paths on `|f(a)| < tol` and `|f(b)| < tol`, the precondition check
`fa * fb > 0`, then the main loop.  Returns the root together with the
history (the caller-facing wrapper drops the history when it was not
requested). -/
def bissecaoCore (f : ℚ → ℚ) (a b tol : ℚ) (max_iter : Nat) :
    Except String (ℚ × List IterationRecord) :=
  let fa := f a
  let fb := f b
  if pyAbs fa < tol then .ok (a, [])
  else if pyAbs fb < tol then .ok (b, [])
  else if fa * fb > 0 then
    .error "Não há garantia de raiz: f(a) e f(b) têm o mesmo sinal."
  else .ok (bissecaoLoop f tol max_iter 1 a b fa fb [])

/-- `bissecao(f, a, b, tol, max_iter, verbose, return_history)`.
`verbose` only controls a `print` in the source, so the computation
ignores it; `return_history` selects the return shape. -/
def bissecao (f : ℚ → ℚ) (a b tol : ℚ) (max_iter : Nat)
    (verbose return_history : Bool) : Except String PyReturn :=
  match bissecaoCore f a b tol max_iter with
  | .error e => .error e
  | .ok (r, h) =>
    .ok (if return_history then .rootHist r h else .root r)

/-- `f1(x) = x*x - x - 1` from the example section of the source. -/
def f1 (x : ℚ) : ℚ := x * x - x - 1

/-- The root carried by either return shape. -/
def returnedRoot : PyReturn → ℚ
  | .root r => r
  | .rootHist r _ => r

/-- The history carried by a successful call with `return_history`;
empty for the other shapes. -/
def returnedHistory : Except String PyReturn → List IterationRecord
  | .ok (.rootHist _ h) => h
  | _ => []

theorem pyAbs_eq_abs (q : ℚ) : pyAbs q = |q| := by
  unfold pyAbs
  rcases lt_or_le q 0 with h | h
  · simp [h, abs_of_neg h]
  · simp [not_lt.mpr h, abs_of_nonneg h]

/-! ### Small-step lemmas for the loop -/

theorem bissecaoLoop_zero (f : ℚ → ℚ) (tol : ℚ) (k : Nat) (a b fa fb : ℚ)
    (hist : List IterationRecord) :
    bissecaoLoop f tol 0 k a b fa fb hist = ((a + b) / 2, hist) := rfl

theorem bissecaoLoop_succ_stop (f : ℚ → ℚ) (tol : ℚ) (fuel k : Nat)
    (a b fa fb : ℚ) (hist : List IterationRecord)
    (h : pyAbs (f ((a + b) / 2)) < tol ∨ (b - a) / 2 < tol) :
    bissecaoLoop f tol (fuel + 1) k a b fa fb hist =
      ((a + b) / 2, hist ++ [⟨k, a, b, (a + b) / 2, f ((a + b) / 2)⟩]) := by
  simp only [bissecaoLoop]
  rw [if_pos h]

theorem bissecaoLoop_succ_left (f : ℚ → ℚ) (tol : ℚ) (fuel k : Nat)
    (a b fa fb : ℚ) (hist : List IterationRecord)
    (h : ¬(pyAbs (f ((a + b) / 2)) < tol ∨ (b - a) / 2 < tol))
    (hs : fa * f ((a + b) / 2) < 0) :
    bissecaoLoop f tol (fuel + 1) k a b fa fb hist =
      bissecaoLoop f tol fuel (k + 1) a ((a + b) / 2) fa (f ((a + b) / 2))
        (hist ++ [⟨k, a, b, (a + b) / 2, f ((a + b) / 2)⟩]) := by
  simp only [bissecaoLoop]
  rw [if_neg h, if_pos hs]

theorem bissecaoLoop_succ_right (f : ℚ → ℚ) (tol : ℚ) (fuel k : Nat)
    (a b fa fb : ℚ) (hist : List IterationRecord)
    (h : ¬(pyAbs (f ((a + b) / 2)) < tol ∨ (b - a) / 2 < tol))
    (hs : ¬fa * f ((a + b) / 2) < 0) :
    bissecaoLoop f tol (fuel + 1) k a b fa fb hist =
      bissecaoLoop f tol fuel (k + 1) ((a + b) / 2) b (f ((a + b) / 2)) fb
        (hist ++ [⟨k, a, b, (a + b) / 2, f ((a + b) / 2)⟩]) := by
  simp only [bissecaoLoop]
  rw [if_neg h, if_neg hs]

/-! ### Structural lemmas about the loop -/

/-- The loop only ever appends to the history it is given. -/
theorem bissecaoLoop_hist_suffix (f : ℚ → ℚ) (tol : ℚ) :
    ∀ fuel k (a b fa fb : ℚ) (hist : List IterationRecord),
      ∃ t, (bissecaoLoop f tol fuel k a b fa fb hist).2 = hist ++ t := by
  intro fuel
  induction fuel with
  | zero =>
    intro k a b fa fb hist
    exact ⟨[], (List.append_nil hist).symm⟩
  | succ fuel ih =>
    intro k a b fa fb hist
    by_cases hstop : pyAbs (f ((a + b) / 2)) < tol ∨ (b - a) / 2 < tol
    · rw [bissecaoLoop_succ_stop f tol fuel k a b fa fb hist hstop]
      exact ⟨[⟨k, a, b, (a + b) / 2, f ((a + b) / 2)⟩], rfl⟩
    · by_cases hs : fa * f ((a + b) / 2) < 0
      · rw [bissecaoLoop_succ_left f tol fuel k a b fa fb hist hstop hs]
        obtain ⟨t, ht⟩ := ih (k + 1) a ((a + b) / 2) fa (f ((a + b) / 2))
          (hist ++ [⟨k, a, b, (a + b) / 2, f ((a + b) / 2)⟩])
        exact ⟨⟨k, a, b, (a + b) / 2, f ((a + b) / 2)⟩ :: t, by
          rw [ht, List.append_assoc]; rfl⟩
      · rw [bissecaoLoop_succ_right f tol fuel k a b fa fb hist hstop hs]
        obtain ⟨t, ht⟩ := ih (k + 1) ((a + b) / 2) b (f ((a + b) / 2)) fb
          (hist ++ [⟨k, a, b, (a + b) / 2, f ((a + b) / 2)⟩])
        exact ⟨⟨k, a, b, (a + b) / 2, f ((a + b) / 2)⟩ :: t, by
          rw [ht, List.append_assoc]; rfl⟩

/-- The loop appends at most `fuel` history entries. -/
theorem bissecaoLoop_length_le (f : ℚ → ℚ) (tol : ℚ) :
    ∀ fuel k (a b fa fb : ℚ) (hist : List IterationRecord),
      (bissecaoLoop f tol fuel k a b fa fb hist).2.length ≤ hist.length + fuel := by
  intro fuel
  induction fuel with
  | zero =>
    intro k a b fa fb hist
    simp [bissecaoLoop_zero]
  | succ fuel ih =>
    intro k a b fa fb hist
    by_cases hstop : pyAbs (f ((a + b) / 2)) < tol ∨ (b - a) / 2 < tol
    · rw [bissecaoLoop_succ_stop f tol fuel k a b fa fb hist hstop]
      simp only [List.length_append, List.length_cons, List.length_nil]
      omega
    · by_cases hs : fa * f ((a + b) / 2) < 0
      · rw [bissecaoLoop_succ_left f tol fuel k a b fa fb hist hstop hs]
        have := ih (k + 1) a ((a + b) / 2) fa (f ((a + b) / 2))
          (hist ++ [⟨k, a, b, (a + b) / 2, f ((a + b) / 2)⟩])
        simp only [List.length_append, List.length_cons, List.length_nil] at this
        omega
      · rw [bissecaoLoop_succ_right f tol fuel k a b fa fb hist hstop hs]
        have := ih (k + 1) ((a + b) / 2) b (f ((a + b) / 2)) fb
          (hist ++ [⟨k, a, b, (a + b) / 2, f ((a + b) / 2)⟩])
        simp only [List.length_append, List.length_cons, List.length_nil] at this
        omega

/-- If the loop appended strictly fewer than `fuel` entries, it returned
from inside (one of the stopping criteria fired): the returned root is
the midpoint recorded in the last history entry, and that entry
witnesses the criterion. -/
theorem bissecaoLoop_early_exit (f : ℚ → ℚ) (tol : ℚ) :
    ∀ fuel k (a b fa fb : ℚ) (hist : List IterationRecord),
      (bissecaoLoop f tol fuel k a b fa fb hist).2.length < hist.length + fuel →
      ∃ e, (bissecaoLoop f tol fuel k a b fa fb hist).2.getLast? = some e ∧
        (bissecaoLoop f tol fuel k a b fa fb hist).1 = e.x ∧
        e.fx = f e.x ∧
        (pyAbs e.fx < tol ∨ (e.b - e.a) / 2 < tol) := by
  intro fuel
  induction fuel with
  | zero =>
    intro k a b fa fb hist hlen
    simp [bissecaoLoop_zero] at hlen
  | succ fuel ih =>
    intro k a b fa fb hist hlen
    by_cases hstop : pyAbs (f ((a + b) / 2)) < tol ∨ (b - a) / 2 < tol
    · rw [bissecaoLoop_succ_stop f tol fuel k a b fa fb hist hstop]
      exact ⟨⟨k, a, b, (a + b) / 2, f ((a + b) / 2)⟩,
        List.getLast?_concat hist, rfl, rfl, hstop⟩
    · by_cases hs : fa * f ((a + b) / 2) < 0
      · rw [bissecaoLoop_succ_left f tol fuel k a b fa fb hist hstop hs] at hlen ⊢
        refine ih (k + 1) a ((a + b) / 2) fa (f ((a + b) / 2))
          (hist ++ [⟨k, a, b, (a + b) / 2, f ((a + b) / 2)⟩]) ?_
        simp only [List.length_append, List.length_cons, List.length_nil]
        omega
      · rw [bissecaoLoop_succ_right f tol fuel k a b fa fb hist hstop hs] at hlen ⊢
        refine ih (k + 1) ((a + b) / 2) b (f ((a + b) / 2)) fb
          (hist ++ [⟨k, a, b, (a + b) / 2, f ((a + b) / 2)⟩]) ?_
        simp only [List.length_append, List.length_cons, List.length_nil]
        omega

/-- Every entry the loop appends from counter `k` onwards records an
interval whose length is the current length `b - a` divided by
`2 ^ (e.k - k)`: the interval is exactly halved at each iteration. -/
theorem bissecaoLoop_halving (f : ℚ → ℚ) (tol : ℚ) :
    ∀ fuel k (a b fa fb : ℚ) (hist : List IterationRecord),
      ∀ e ∈ (bissecaoLoop f tol fuel k a b fa fb hist).2,
        e ∈ hist ∨ (k ≤ e.k ∧ e.b - e.a = (b - a) / 2 ^ (e.k - k)) := by
  intro fuel
  induction fuel with
  | zero =>
    intro k a b fa fb hist e he
    rw [bissecaoLoop_zero] at he
    exact Or.inl he
  | succ fuel ih =>
    intro k a b fa fb hist e he
    have hxa : (a + b) / 2 - a = (b - a) / 2 := by ring
    have hbx : b - (a + b) / 2 = (b - a) / 2 := by ring
    by_cases hstop : pyAbs (f ((a + b) / 2)) < tol ∨ (b - a) / 2 < tol
    · rw [bissecaoLoop_succ_stop f tol fuel k a b fa fb hist hstop] at he
      rcases List.mem_append.mp he with hmem | hmem
      · exact Or.inl hmem
      · rcases List.mem_singleton.mp hmem with rfl
        exact Or.inr ⟨le_refl k, by simp⟩
    · by_cases hs : fa * f ((a + b) / 2) < 0
      · rw [bissecaoLoop_succ_left f tol fuel k a b fa fb hist hstop hs] at he
        rcases ih (k + 1) a ((a + b) / 2) fa (f ((a + b) / 2))
            (hist ++ [⟨k, a, b, (a + b) / 2, f ((a + b) / 2)⟩]) e he with hmem | ⟨hk, hlen⟩
        · rcases List.mem_append.mp hmem with hmem' | hmem'
          · exact Or.inl hmem'
          · rcases List.mem_singleton.mp hmem' with rfl
            exact Or.inr ⟨le_refl k, by simp⟩
        · refine Or.inr ⟨le_trans (Nat.le_succ k) hk, ?_⟩
          rw [hlen, hxa]
          rw [show e.k - k = (e.k - (k + 1)) + 1 by omega, pow_succ]
          ring
      · rw [bissecaoLoop_succ_right f tol fuel k a b fa fb hist hstop hs] at he
        rcases ih (k + 1) ((a + b) / 2) b (f ((a + b) / 2)) fb
            (hist ++ [⟨k, a, b, (a + b) / 2, f ((a + b) / 2)⟩]) e he with hmem | ⟨hk, hlen⟩
        · rcases List.mem_append.mp hmem with hmem' | hmem'
          · exact Or.inl hmem'
          · rcases List.mem_singleton.mp hmem' with rfl
            exact Or.inr ⟨le_refl k, by simp⟩
        · refine Or.inr ⟨le_trans (Nat.le_succ k) hk, ?_⟩
          rw [hlen, hbx]
          rw [show e.k - k = (e.k - (k + 1)) + 1 by omega, pow_succ]
          ring

/-- A value whose magnitude is not below a positive tolerance is nonzero. -/
theorem ne_zero_of_pyAbs_not_lt {tol q : ℚ} (htol : 0 < tol)
    (h : ¬pyAbs q < tol) : q ≠ 0 := by
  intro hq
  exact h (by simp [hq, pyAbs, htol])

/-- Sign-change preservation: as long as the threaded values `fa`, `fb`
are the values of `f` at the current endpoints and have opposite signs,
every history entry the loop records has endpoints at which `f` takes
opposite signs. -/
theorem bissecaoLoop_bracket (f : ℚ → ℚ) (tol : ℚ) (htol : 0 < tol) :
    ∀ fuel k (a b fa fb : ℚ) (hist : List IterationRecord),
      fa = f a → fb = f b → f a * f b < 0 →
      (∀ e ∈ hist, f e.a * f e.b < 0) →
      ∀ e ∈ (bissecaoLoop f tol fuel k a b fa fb hist).2, f e.a * f e.b < 0 := by
  intro fuel
  induction fuel with
  | zero =>
    intro k a b fa fb hist _ _ _ hinv e he
    rw [bissecaoLoop_zero] at he
    exact hinv e he
  | succ fuel ih =>
    intro k a b fa fb hist hfa hfb hab hinv e he
    have hinv' : ∀ e ∈ hist ++ [⟨k, a, b, (a + b) / 2, f ((a + b) / 2)⟩],
        f e.a * f e.b < 0 := by
      intro e he'
      rcases List.mem_append.mp he' with hmem | hmem
      · exact hinv e hmem
      · rcases List.mem_singleton.mp hmem with rfl
        exact hab
    by_cases hstop : pyAbs (f ((a + b) / 2)) < tol ∨ (b - a) / 2 < tol
    · rw [bissecaoLoop_succ_stop f tol fuel k a b fa fb hist hstop] at he
      exact hinv' e he
    · by_cases hs : fa * f ((a + b) / 2) < 0
      · rw [bissecaoLoop_succ_left f tol fuel k a b fa fb hist hstop hs] at he
        refine ih (k + 1) a ((a + b) / 2) fa (f ((a + b) / 2)) _ hfa rfl ?_ hinv' e he
        rw [← hfa]; exact hs
      · rw [bissecaoLoop_succ_right f tol fuel k a b fa fb hist hstop hs] at he
        have hx0 : f ((a + b) / 2) ≠ 0 :=
          ne_zero_of_pyAbs_not_lt htol (fun hlt => hstop (Or.inl hlt))
        have hfa0 : f a ≠ 0 := fun h0 => by
          rw [h0, zero_mul] at hab; exact lt_irrefl 0 hab
        have hpos : 0 < f a * f ((a + b) / 2) := by
          rcases lt_or_le 0 (f a * f ((a + b) / 2)) with h' | h'
          · exact h'
          · exfalso
            have : f a * f ((a + b) / 2) = 0 := le_antisymm h' (by rw [hfa] at hs; exact not_lt.mp hs)
            rcases mul_eq_zero.mp this with h0 | h0
            · exact hfa0 h0
            · exact hx0 h0
        have hxb : f ((a + b) / 2) * f b < 0 := by
          by_contra hge
          push_neg at hge
          have h1 : 0 ≤ (f a * f ((a + b) / 2)) * (f ((a + b) / 2) * f b) :=
            mul_nonneg hpos.le hge
          have h2 : (f a * f ((a + b) / 2)) * (f ((a + b) / 2) * f b) =
              (f a * f b) * f ((a + b) / 2) ^ 2 := by ring
          have h3 : 0 < f ((a + b) / 2) ^ 2 := pow_two_pos_of_ne_zero hx0
          have h4 : (f a * f b) * f ((a + b) / 2) ^ 2 < 0 :=
            mul_neg_of_neg_of_pos hab h3
          rw [h2] at h1
          linarith
        exact ih (k + 1) ((a + b) / 2) b (f ((a + b) / 2)) fb _ rfl hfb hxb hinv' e he

/-- The iteration indices recorded by the loop beyond the history it
was given are contiguous, starting at the current counter `k`. -/
theorem bissecaoLoop_indices (f : ℚ → ℚ) (tol : ℚ) :
    ∀ fuel k (a b fa fb : ℚ) (hist t : List IterationRecord),
      (bissecaoLoop f tol fuel k a b fa fb hist).2 = hist ++ t →
      t.map IterationRecord.k = List.range' k t.length := by
  intro fuel
  induction fuel with
  | zero =>
    intro k a b fa fb hist t ht
    rw [bissecaoLoop_zero] at ht
    have : t.length = 0 := by
      have := congrArg List.length ht
      simp only [List.length_append] at this
      omega
    rw [List.eq_nil_of_length_eq_zero this]
    rfl
  | succ fuel ih =>
    intro k a b fa fb hist t ht
    by_cases hstop : pyAbs (f ((a + b) / 2)) < tol ∨ (b - a) / 2 < tol
    · rw [bissecaoLoop_succ_stop f tol fuel k a b fa fb hist hstop] at ht
      have : t = [⟨k, a, b, (a + b) / 2, f ((a + b) / 2)⟩] :=
        (List.append_cancel_left ht.symm)
      rw [this]
      simp [List.range'_succ]
    · by_cases hs : fa * f ((a + b) / 2) < 0
      · rw [bissecaoLoop_succ_left f tol fuel k a b fa fb hist hstop hs] at ht
        obtain ⟨t', ht'⟩ := bissecaoLoop_hist_suffix f tol fuel (k + 1) a ((a + b) / 2)
          fa (f ((a + b) / 2)) (hist ++ [⟨k, a, b, (a + b) / 2, f ((a + b) / 2)⟩])
        have htt : t = ⟨k, a, b, (a + b) / 2, f ((a + b) / 2)⟩ :: t' := by
          rw [ht'] at ht
          rw [List.append_assoc] at ht
          exact List.append_cancel_left ht.symm
        have hmap := ih (k + 1) a ((a + b) / 2) fa (f ((a + b) / 2))
          (hist ++ [⟨k, a, b, (a + b) / 2, f ((a + b) / 2)⟩]) t' ht'
        rw [htt]
        simp only [List.map_cons, List.length_cons, hmap]
        rw [List.range'_succ k t'.length 1]
      · rw [bissecaoLoop_succ_right f tol fuel k a b fa fb hist hstop hs] at ht
        obtain ⟨t', ht'⟩ := bissecaoLoop_hist_suffix f tol fuel (k + 1) ((a + b) / 2) b
          (f ((a + b) / 2)) fb (hist ++ [⟨k, a, b, (a + b) / 2, f ((a + b) / 2)⟩])
        have htt : t = ⟨k, a, b, (a + b) / 2, f ((a + b) / 2)⟩ :: t' := by
          rw [ht'] at ht
          rw [List.append_assoc] at ht
          exact List.append_cancel_left ht.symm
        have hmap := ih (k + 1) ((a + b) / 2) b (f ((a + b) / 2)) fb
          (hist ++ [⟨k, a, b, (a + b) / 2, f ((a + b) / 2)⟩]) t' ht'
        rw [htt]
        simp only [List.map_cons, List.length_cons, hmap]
        rw [List.range'_succ k t'.length 1]

/-! ### Relating the wrapper to the core -/

theorem bissecao_true_ok (f : ℚ → ℚ) (a b tol : ℚ) (mi : Nat) (v : Bool)
    (r : ℚ) (h : List IterationRecord)
    (heq : bissecao f a b tol mi v true = .ok (.rootHist r h)) :
    bissecaoCore f a b tol mi = .ok (r, h) := by
  unfold bissecao at heq
  cases hc : bissecaoCore f a b tol mi with
  | error e =>
    rw [hc] at heq
    exact absurd heq (by simp)
  | ok p =>
    rw [hc] at heq
    obtain ⟨r', h'⟩ := p
    simp only [if_pos] at heq
    injection heq with heq'
    injection heq' with hr hh
    rw [hr, hh]

/-- Case analysis on a successful core call: either one of the two
fast paths fired, or the precondition held and the result comes from
the loop started at counter 1 with an empty history. -/
theorem bissecaoCore_ok_cases (f : ℚ → ℚ) (a b tol : ℚ) (mi : Nat)
    (r : ℚ) (h : List IterationRecord)
    (hc : bissecaoCore f a b tol mi = .ok (r, h)) :
    (pyAbs (f a) < tol ∧ r = a ∧ h = []) ∨
    (¬pyAbs (f a) < tol ∧ pyAbs (f b) < tol ∧ r = b ∧ h = []) ∨
    (¬pyAbs (f a) < tol ∧ ¬pyAbs (f b) < tol ∧ ¬f a * f b > 0 ∧
      (r, h) = bissecaoLoop f tol mi 1 a b (f a) (f b) []) := by
  unfold bissecaoCore at hc
  by_cases h1 : pyAbs (f a) < tol
  · rw [if_pos h1] at hc
    injection hc with hc'
    injection hc' with hr hh
    exact Or.inl ⟨h1, hr.symm, hh.symm⟩
  · rw [if_neg h1] at hc
    by_cases h2 : pyAbs (f b) < tol
    · rw [if_pos h2] at hc
      injection hc with hc'
      injection hc' with hr hh
      exact Or.inr (Or.inl ⟨h1, h2, hr.symm, hh.symm⟩)
    · rw [if_neg h2] at hc
      by_cases h3 : f a * f b > 0
      · rw [if_pos h3] at hc
        exact absurd hc (by simp)
      · rw [if_neg h3] at hc
        injection hc with hc'
        exact Or.inr (Or.inr ⟨h1, h2, h3, hc'.symm⟩)

/-! ### Claim theorems -/

/-- C9: the root value computed by `bissecao` is independent of the
`verbose` and `return_history` flags: for any two flag settings the
returned value (projected to its root by `returnedRoot`) is the same,
and in particular the value returned with `return_history = false`
equals the first component of the pair returned with
`return_history = true`. -/
theorem C9_root_independent_of_flags (f : ℚ → ℚ) (a b tol : ℚ) (mi : Nat)
    (v v' rh rh' : Bool) :
    Except.map returnedRoot (bissecao f a b tol mi v rh) =
      Except.map returnedRoot (bissecao f a b tol mi v' rh') := by
  unfold bissecao
  cases bissecaoCore f a b tol mi with
  | error e => rfl
  | ok p =>
    obtain ⟨r, h⟩ := p
    cases rh <;> cases rh' <;> rfl

/-- C10: `bissecao` always terminates (it is a total function of its
fuel) and performs at most `max_iter` loop iterations, so the history
returned when requested has length at most `max_iter`. -/
theorem C10_history_bounded_by_max_iter (f : ℚ → ℚ) (a b tol : ℚ)
    (mi : Nat) (v : Bool) :
    (returnedHistory (bissecao f a b tol mi v true)).length ≤ mi := by
  cases hc : bissecao f a b tol mi v true with
  | error e => simp [returnedHistory]
  | ok p =>
    cases p with
    | root r => simp [returnedHistory]
    | rootHist r h =>
      have hcore := bissecao_true_ok f a b tol mi v r h hc
      simp only [returnedHistory]
      rcases bissecaoCore_ok_cases f a b tol mi r h hcore with
        ⟨_, _, hh⟩ | ⟨_, _, _, hh⟩ | ⟨_, _, _, heq⟩
      · rw [hh]; simp
      · rw [hh]; simp
      · have hh : h = (bissecaoLoop f tol mi 1 a b (f a) (f b) []).2 :=
          congrArg Prod.snd heq
        rw [hh]
        simpa using bissecaoLoop_length_le f tol mi 1 a b (f a) (f b) []

/-- C3: if `|f(a)| < tolerance`, `bissecao` returns exactly `a` with
zero iterations performed: the returned history, when requested, is
empty. -/
theorem C3_fast_path_returns_a (f : ℚ → ℚ) (a b tol : ℚ) (mi : Nat)
    (v rh : Bool) (h : |f a| < tol) :
    bissecao f a b tol mi v rh =
      .ok (if rh then .rootHist a [] else .root a) := by
  have h' : pyAbs (f a) < tol := by rw [pyAbs_eq_abs]; exact h
  unfold bissecao bissecaoCore
  rw [if_pos h']

theorem C3_fast_path_returns_a_witness :
    |(fun x : ℚ => x - 3) 3| < 1/2 ∧
      bissecao (fun x : ℚ => x - 3) 3 5 (1/2) 10 true true =
        .ok (.rootHist 3 []) :=
  ⟨by norm_num,
    (C3_fast_path_returns_a (fun x : ℚ => x - 3) 3 5 (1/2) 10 true true
      (by norm_num)).trans rfl⟩

/-- C1: for bounds that bracket a sign change, whenever `bissecao`
returns from inside the iteration loop (fewer than `max_iter` entries
were recorded), the returned root `r` satisfies `|f(r)| < tolerance`,
or half the final interval length — recorded in the last history
entry — is below the tolerance. -/
theorem C1_inner_return_meets_criterion (f : ℚ → ℚ) (a b tol : ℚ)
    (mi : Nat) (v : Bool) (r : ℚ) (h : List IterationRecord)
    (hsign : f a * f b < 0)
    (heq : bissecao f a b tol mi v true = .ok (.rootHist r h))
    (hlen : h.length < mi) :
    |f r| < tol ∨ ∃ e, h.getLast? = some e ∧ (e.b - e.a) / 2 < tol := by
  have hcore := bissecao_true_ok f a b tol mi v r h heq
  rcases bissecaoCore_ok_cases f a b tol mi r h hcore with
    ⟨hfa, hr, _⟩ | ⟨_, hfb, hr, _⟩ | ⟨_, _, _, hloop⟩
  · left; rw [hr, ← pyAbs_eq_abs]; exact hfa
  · left; rw [hr, ← pyAbs_eq_abs]; exact hfb
  · have hr : r = (bissecaoLoop f tol mi 1 a b (f a) (f b) []).1 :=
      congrArg Prod.fst hloop
    have hh : h = (bissecaoLoop f tol mi 1 a b (f a) (f b) []).2 :=
      congrArg Prod.snd hloop
    have hlen' : (bissecaoLoop f tol mi 1 a b (f a) (f b) []).2.length <
        ([] : List IterationRecord).length + mi := by
      rw [← hh]; simpa using hlen
    obtain ⟨e, hlast, hroot, hfx, hcrit⟩ :=
      bissecaoLoop_early_exit f tol mi 1 a b (f a) (f b) [] hlen'
    rcases hcrit with hcrit | hcrit
    · left
      rw [hr, hroot, ← pyAbs_eq_abs, ← hfx]
      exact hcrit
    · right
      exact ⟨e, by rw [hh]; exact hlast, hcrit⟩

theorem C1_inner_return_meets_criterion_witness :
    ((fun x : ℚ => x) (-1) * (fun x : ℚ => x) 1 < 0) ∧
      (|(0 : ℚ)| < 1/4 ∨
        ∃ e, ([⟨1, -1, 1, 0, 0⟩] : List IterationRecord).getLast? = some e ∧
          (e.b - e.a) / 2 < 1/4) :=
  ⟨by norm_num,
    C1_inner_return_meets_criterion (fun x : ℚ => x) (-1) 1 (1/4) 2 false
      0 [⟨1, -1, 1, 0, 0⟩] (by norm_num)
      (by norm_num [bissecao, bissecaoCore, bissecaoLoop, pyAbs])
      (by norm_num)⟩

/-- C4: in every run of `bissecao`, each history entry records an
interval whose length is the initial length `b - a` divided by
`2 ^ (k - 1)` where `k` is the entry's iteration index: entry `k`
holds the interval after `k - 1` halvings, so the interval length
after `k` full iterations is the initial length divided by `2^k`. -/
theorem C4_interval_halved_each_iteration (f : ℚ → ℚ) (a b tol : ℚ)
    (mi : Nat) (v : Bool) (r : ℚ) (h : List IterationRecord)
    (heq : bissecao f a b tol mi v true = .ok (.rootHist r h)) :
    ∀ e ∈ h, 1 ≤ e.k ∧ e.b - e.a = (b - a) / 2 ^ (e.k - 1) := by
  have hcore := bissecao_true_ok f a b tol mi v r h heq
  rcases bissecaoCore_ok_cases f a b tol mi r h hcore with
    ⟨_, _, hh⟩ | ⟨_, _, _, hh⟩ | ⟨_, _, _, hloop⟩
  · intro e he; rw [hh] at he; exact absurd he (List.not_mem_nil e)
  · intro e he; rw [hh] at he; exact absurd he (List.not_mem_nil e)
  · intro e he
    have hh : h = (bissecaoLoop f tol mi 1 a b (f a) (f b) []).2 :=
      congrArg Prod.snd hloop
    rw [hh] at he
    rcases bissecaoLoop_halving f tol mi 1 a b (f a) (f b) [] e he with
      hmem | ⟨hk, hl⟩
    · exact absurd hmem (List.not_mem_nil e)
    · exact ⟨hk, hl⟩

theorem C4_interval_halved_each_iteration_witness :
    (bissecao (fun x : ℚ => x) (-1) 1 (1/4) 3 false true =
        .ok (.rootHist 0 [⟨1, -1, 1, 0, 0⟩])) ∧
      ∀ e ∈ ([⟨1, -1, 1, 0, 0⟩] : List IterationRecord),
        1 ≤ e.k ∧ e.b - e.a = (1 - (-1)) / 2 ^ (e.k - 1) :=
  ⟨by norm_num [bissecao, bissecaoCore, bissecaoLoop, pyAbs],
    C4_interval_halved_each_iteration (fun x : ℚ => x) (-1) 1 (1/4) 3 false
      0 [⟨1, -1, 1, 0, 0⟩]
      (by norm_num [bissecao, bissecaoCore, bissecaoLoop, pyAbs])⟩

/-- C5: with a positive tolerance, at every iteration boundary of a
run of `bissecao` that enters the loop — that is, in every history
entry — the endpoint values `f(a)` and `f(b)` have opposite signs, or
one of them has magnitude below the tolerance: the sign-change
bracket is preserved by every interval update. -/
theorem C5_bracket_preserved (f : ℚ → ℚ) (a b tol : ℚ)
    (mi : Nat) (v : Bool) (r : ℚ) (h : List IterationRecord)
    (htol : 0 < tol)
    (heq : bissecao f a b tol mi v true = .ok (.rootHist r h)) :
    ∀ e ∈ h, f e.a * f e.b < 0 ∨ |f e.a| < tol ∨ |f e.b| < tol := by
  have hcore := bissecao_true_ok f a b tol mi v r h heq
  rcases bissecaoCore_ok_cases f a b tol mi r h hcore with
    ⟨_, _, hh⟩ | ⟨_, _, _, hh⟩ | ⟨hfa, hfb, hab, hloop⟩
  · intro e he; rw [hh] at he; exact absurd he (List.not_mem_nil e)
  · intro e he; rw [hh] at he; exact absurd he (List.not_mem_nil e)
  · intro e he
    have hh : h = (bissecaoLoop f tol mi 1 a b (f a) (f b) []).2 :=
      congrArg Prod.snd hloop
    rw [hh] at he
    have ha0 : f a ≠ 0 := ne_zero_of_pyAbs_not_lt htol hfa
    have hb0 : f b ≠ 0 := ne_zero_of_pyAbs_not_lt htol hfb
    have hneg : f a * f b < 0 :=
      lt_of_le_of_ne (not_lt.mp hab) (mul_ne_zero ha0 hb0)
    exact Or.inl (bissecaoLoop_bracket f tol htol mi 1 a b (f a) (f b) []
      rfl rfl hneg (fun e he' => absurd he' (List.not_mem_nil e)) e he)

theorem C5_bracket_preserved_witness :
    (0 : ℚ) < 1/4 ∧
      ∀ e ∈ ([⟨1, -1, 1, 0, 0⟩] : List IterationRecord),
        (fun x : ℚ => x) e.a * (fun x : ℚ => x) e.b < 0 ∨
          |(fun x : ℚ => x) e.a| < 1/4 ∨ |(fun x : ℚ => x) e.b| < 1/4 :=
  ⟨by norm_num,
    C5_bracket_preserved (fun x : ℚ => x) (-1) 1 (1/4) 2 false
      0 [⟨1, -1, 1, 0, 0⟩] (by norm_num)
      (by norm_num [bissecao, bissecaoCore, bissecaoLoop, pyAbs])⟩

/-- C2 counterexample: a function that is strictly positive at both
endpoints but with magnitude below the tolerance does NOT raise the
precondition error — the fast path returns the endpoint `a` first, so
the claim as stated is false. -/
theorem C2_cex_fast_path_preempts_error :
    ((0 : ℚ) < (fun _ : ℚ => (1 : ℚ)/2000000) 0 ∧
      (0 : ℚ) < (fun _ : ℚ => (1 : ℚ)/2000000) 1) ∧
      bissecao (fun _ : ℚ => (1 : ℚ)/2000000) 0 1 (1/1000000) 100 false false =
        .ok (.root 0) := by
  refine ⟨⟨by norm_num, by norm_num⟩, ?_⟩
  norm_num [bissecao, bissecaoCore, pyAbs]

/-- C2 (amended): if `f(a)` and `f(b)` are both positive (or both
negative) and, in addition, neither magnitude is below the tolerance
(so the fast paths do not fire), `bissecao` raises the precondition
`ValueError` and performs no iterations. -/
theorem C2_same_sign_raises (f : ℚ → ℚ) (a b tol : ℚ) (mi : Nat)
    (v rh : Bool)
    (h1 : tol ≤ |f a|) (h2 : tol ≤ |f b|)
    (hsame : (0 < f a ∧ 0 < f b) ∨ (f a < 0 ∧ f b < 0)) :
    bissecao f a b tol mi v rh =
      .error "Não há garantia de raiz: f(a) e f(b) têm o mesmo sinal." := by
  have h1' : ¬pyAbs (f a) < tol := by rw [pyAbs_eq_abs]; exact not_lt.mpr h1
  have h2' : ¬pyAbs (f b) < tol := by rw [pyAbs_eq_abs]; exact not_lt.mpr h2
  have h3 : f a * f b > 0 := by
    rcases hsame with ⟨ha, hb⟩ | ⟨ha, hb⟩
    · exact mul_pos ha hb
    · exact mul_pos_of_neg_of_neg ha hb
  unfold bissecao bissecaoCore
  rw [if_neg h1', if_neg h2', if_pos h3]

theorem C2_same_sign_raises_witness :
    ((1 : ℚ)/2 ≤ |(fun _ : ℚ => (1 : ℚ)) 0| ∧ (0 : ℚ) < 1) ∧
      bissecao (fun _ : ℚ => (1 : ℚ)) 0 1 (1/2) 7 true false =
        .error "Não há garantia de raiz: f(a) e f(b) têm o mesmo sinal." :=
  ⟨⟨by norm_num, by norm_num⟩,
    C2_same_sign_raises (fun _ : ℚ => (1 : ℚ)) 0 1 (1/2) 7 true false
      (by norm_num) (by norm_num) (Or.inl ⟨by norm_num, by norm_num⟩)⟩

/-- C6 counterexample: with `max_iter = 1` and an unreachable
tolerance, `bissecao` on `f1` over `[1, 2]` returns `7/4` — the
midpoint of the interval left after the single halving step — not the
midpoint `3/2` of the original interval, so the claim as stated is
false. -/
theorem C6_cex_returns_quarter_point :
    bissecao f1 1 2 (1/1000000000000) 1 false false = .ok (.root (7/4)) ∧
      (7/4 : ℚ) ≠ ((1 : ℚ) + 2) / 2 := by
  constructor
  · norm_num [bissecao, bissecaoCore, bissecaoLoop, pyAbs, f1]
  · norm_num

/-- C6 (amended): for bounds passing the sign-change precondition,
with `max_iterations = 1` and a tolerance small enough that neither
stopping criterion is met in the single iteration, `bissecao` returns
without error the midpoint of the interval remaining after the single
halving step: `(a + x)/2` if `f(a)·f(x) < 0`, else `(x + b)/2`, where
`x = (a + b)/2` — the quarter point of the original interval, not its
midpoint. -/
theorem C6_cap_exhaustion_returns_final_midpoint (f : ℚ → ℚ)
    (a b tol : ℚ) (v : Bool)
    (h1 : tol ≤ |f a|) (h2 : tol ≤ |f b|) (h3 : ¬f a * f b > 0)
    (h4 : tol ≤ |f ((a + b) / 2)|) (h5 : tol ≤ (b - a) / 2) :
    bissecao f a b tol 1 v false =
      .ok (.root (if f a * f ((a + b) / 2) < 0
        then (a + (a + b) / 2) / 2 else ((a + b) / 2 + b) / 2)) := by
  have h1' : ¬pyAbs (f a) < tol := by rw [pyAbs_eq_abs]; exact not_lt.mpr h1
  have h2' : ¬pyAbs (f b) < tol := by rw [pyAbs_eq_abs]; exact not_lt.mpr h2
  have hstop : ¬(pyAbs (f ((a + b) / 2)) < tol ∨ (b - a) / 2 < tol) := by
    rintro (hlt | hlt)
    · rw [pyAbs_eq_abs] at hlt
      exact absurd hlt (not_lt.mpr h4)
    · exact absurd hlt (not_lt.mpr h5)
  unfold bissecao bissecaoCore
  rw [if_neg h1', if_neg h2', if_neg h3]
  by_cases hs : f a * f ((a + b) / 2) < 0
  · rw [bissecaoLoop_succ_left f tol 0 1 a b (f a) (f b) [] hstop hs,
      bissecaoLoop_zero, if_pos hs]
    rfl
  · rw [bissecaoLoop_succ_right f tol 0 1 a b (f a) (f b) [] hstop hs,
      bissecaoLoop_zero, if_neg hs]
    rfl

theorem C6_cap_exhaustion_returns_final_midpoint_witness :
    ((1 : ℚ)/1000 ≤ |f1 ((1 + 2) / 2)| ∧ (1 : ℚ)/1000 ≤ (2 - 1) / 2) ∧
      bissecao f1 1 2 (1/1000) 1 true false = .ok (.root (7/4)) :=
  ⟨⟨by norm_num [← pyAbs_eq_abs, pyAbs, f1], by norm_num⟩,
    (C6_cap_exhaustion_returns_final_midpoint f1 1 2 (1/1000) true
      (by norm_num [← pyAbs_eq_abs, pyAbs, f1])
      (by norm_num [← pyAbs_eq_abs, pyAbs, f1]) (by norm_num [f1])
      (by norm_num [← pyAbs_eq_abs, pyAbs, f1]) (by norm_num)).trans
      (by norm_num [f1])⟩

/-- C7 counterexample: a cap-exhausted run with `return_history = true`
returns root `7/4` while the midpoint stored in the last (only)
history entry is `3/2`, so "the midpoint stored in the last entry
equals the returned root" is false as stated for calls that exhaust
`max_iter`. -/
theorem C7_cex_last_midpoint_differs :
    bissecao f1 1 2 (1/100) 1 false true =
        .ok (.rootHist (7/4) [⟨1, 1, 2, 3/2, -1/4⟩]) ∧
      (⟨1, 1, 2, 3/2, -1/4⟩ : IterationRecord).x ≠ (7/4 : ℚ) := by
  constructor
  · norm_num [bissecao, bissecaoCore, bissecaoLoop, pyAbs, f1]
  · norm_num

/-- C7 (amended): for every call of `bissecao` with
`return_history = true` that does not raise, the history's iteration
indices are contiguous starting at 1 (so its length is the number of
loop iterations performed); and when fewer than `max_iter` iterations
were recorded — i.e. the run returned from inside the loop — the
midpoint stored in the last entry, when one exists, equals the
returned root.  (At cap exhaustion the root is instead the midpoint
of the post-update final interval.) -/
theorem C7_history_consistency (f : ℚ → ℚ) (a b tol : ℚ)
    (mi : Nat) (v : Bool) (r : ℚ) (h : List IterationRecord)
    (heq : bissecao f a b tol mi v true = .ok (.rootHist r h)) :
    h.map IterationRecord.k = List.range' 1 h.length ∧
      (h.length < mi → ∀ e, h.getLast? = some e → r = e.x) := by
  have hcore := bissecao_true_ok f a b tol mi v r h heq
  rcases bissecaoCore_ok_cases f a b tol mi r h hcore with
    ⟨_, _, hh⟩ | ⟨_, _, _, hh⟩ | ⟨_, _, _, hloop⟩
  · subst hh
    exact ⟨rfl, fun _ e hlast => absurd hlast (by simp)⟩
  · subst hh
    exact ⟨rfl, fun _ e hlast => absurd hlast (by simp)⟩
  · have hr : r = (bissecaoLoop f tol mi 1 a b (f a) (f b) []).1 :=
      congrArg Prod.fst hloop
    have hh : h = (bissecaoLoop f tol mi 1 a b (f a) (f b) []).2 :=
      congrArg Prod.snd hloop
    constructor
    · exact bissecaoLoop_indices f tol mi 1 a b (f a) (f b) [] h (by rw [← hh]; rfl)
    · intro hlen e hlast
      have hlen' : (bissecaoLoop f tol mi 1 a b (f a) (f b) []).2.length <
          ([] : List IterationRecord).length + mi := by
        rw [← hh]; simpa using hlen
      obtain ⟨e', hlast', hroot, _, _⟩ :=
        bissecaoLoop_early_exit f tol mi 1 a b (f a) (f b) [] hlen'
      rw [← hh] at hlast'
      rw [hlast] at hlast'
      injection hlast' with he'
      rw [hr, hroot, ← he']

theorem C7_history_consistency_witness :
    (bissecao (fun x : ℚ => x) (-1) 1 (1/4) 4 false true =
        .ok (.rootHist 0 [⟨1, -1, 1, 0, 0⟩])) ∧
      ([⟨1, -1, 1, 0, 0⟩] : List IterationRecord).map IterationRecord.k =
        List.range' 1 ([⟨1, -1, 1, 0, 0⟩] : List IterationRecord).length ∧
      (([⟨1, -1, 1, 0, 0⟩] : List IterationRecord).length < 4 →
        ∀ e, ([⟨1, -1, 1, 0, 0⟩] : List IterationRecord).getLast? = some e →
          (0 : ℚ) = e.x) :=
  ⟨by norm_num [bissecao, bissecaoCore, bissecaoLoop, pyAbs],
    C7_history_consistency (fun x : ℚ => x) (-1) 1 (1/4) 4 false
      0 [⟨1, -1, 1, 0, 0⟩]
      (by norm_num [bissecao, bissecaoCore, bissecaoLoop, pyAbs])⟩

/-- C8: on the concrete input `f1(x) = x² - x - 1`, `a = 1`, `b = 2`,
`tolerance = 1e-6` (and the default `max_iter = 100`), `bissecao`
returns from inside the loop after 17 iterations, so within the
claimed bound of 21, and the returned root `212079/131072` is within
`1e-6` of `1.618034` (the golden ratio). -/
theorem C8_golden_ratio_run :
    bissecao f1 1 2 (1/1000000) 100 false true =
        .ok (.rootHist (212079/131072) [⟨1, (1 : ℚ), (2 : ℚ), (3/2 : ℚ), (-1/4 : ℚ)⟩, ⟨2, (3/2 : ℚ), (2 : ℚ), (7/4 : ℚ), (5/16 : ℚ)⟩, ⟨3, (3/2 : ℚ), (7/4 : ℚ), (13/8 : ℚ), (1/64 : ℚ)⟩, ⟨4, (3/2 : ℚ), (13/8 : ℚ), (25/16 : ℚ), (-31/256 : ℚ)⟩, ⟨5, (25/16 : ℚ), (13/8 : ℚ), (51/32 : ℚ), (-55/1024 : ℚ)⟩, ⟨6, (51/32 : ℚ), (13/8 : ℚ), (103/64 : ℚ), (-79/4096 : ℚ)⟩, ⟨7, (103/64 : ℚ), (13/8 : ℚ), (207/128 : ℚ), (-31/16384 : ℚ)⟩, ⟨8, (207/128 : ℚ), (13/8 : ℚ), (415/256 : ℚ), (449/65536 : ℚ)⟩, ⟨9, (207/128 : ℚ), (415/256 : ℚ), (829/512 : ℚ), (649/262144 : ℚ)⟩, ⟨10, (207/128 : ℚ), (829/512 : ℚ), (1657/1024 : ℚ), (305/1048576 : ℚ)⟩, ⟨11, (207/128 : ℚ), (1657/1024 : ℚ), (3313/2048 : ℚ), (-3359/4194304 : ℚ)⟩, ⟨12, (3313/2048 : ℚ), (1657/1024 : ℚ), (6627/4096 : ℚ), (-4279/16777216 : ℚ)⟩, ⟨13, (6627/4096 : ℚ), (1657/1024 : ℚ), (13255/8192 : ℚ), (1201/67108864 : ℚ)⟩, ⟨14, (6627/4096 : ℚ), (13255/8192 : ℚ), (26509/16384 : ℚ), (-31831/268435456 : ℚ)⟩, ⟨15, (26509/16384 : ℚ), (13255/8192 : ℚ), (53019/32768 : ℚ), (-54055/1073741824 : ℚ)⟩, ⟨16, (53019/32768 : ℚ), (13255/8192 : ℚ), (106039/65536 : ℚ), (-69679/4294967296 : ℚ)⟩, ⟨17, (106039/65536 : ℚ), (13255/8192 : ℚ), (212079/131072 : ℚ), (14369/17179869184 : ℚ)⟩]) ∧
      |(212079/131072 : ℚ) - 1618034/1000000| < 1/1000000 ∧
      ([⟨1, (1 : ℚ), (2 : ℚ), (3/2 : ℚ), (-1/4 : ℚ)⟩, ⟨2, (3/2 : ℚ), (2 : ℚ), (7/4 : ℚ), (5/16 : ℚ)⟩, ⟨3, (3/2 : ℚ), (7/4 : ℚ), (13/8 : ℚ), (1/64 : ℚ)⟩, ⟨4, (3/2 : ℚ), (13/8 : ℚ), (25/16 : ℚ), (-31/256 : ℚ)⟩, ⟨5, (25/16 : ℚ), (13/8 : ℚ), (51/32 : ℚ), (-55/1024 : ℚ)⟩, ⟨6, (51/32 : ℚ), (13/8 : ℚ), (103/64 : ℚ), (-79/4096 : ℚ)⟩, ⟨7, (103/64 : ℚ), (13/8 : ℚ), (207/128 : ℚ), (-31/16384 : ℚ)⟩, ⟨8, (207/128 : ℚ), (13/8 : ℚ), (415/256 : ℚ), (449/65536 : ℚ)⟩, ⟨9, (207/128 : ℚ), (415/256 : ℚ), (829/512 : ℚ), (649/262144 : ℚ)⟩, ⟨10, (207/128 : ℚ), (829/512 : ℚ), (1657/1024 : ℚ), (305/1048576 : ℚ)⟩, ⟨11, (207/128 : ℚ), (1657/1024 : ℚ), (3313/2048 : ℚ), (-3359/4194304 : ℚ)⟩, ⟨12, (3313/2048 : ℚ), (1657/1024 : ℚ), (6627/4096 : ℚ), (-4279/16777216 : ℚ)⟩, ⟨13, (6627/4096 : ℚ), (1657/1024 : ℚ), (13255/8192 : ℚ), (1201/67108864 : ℚ)⟩, ⟨14, (6627/4096 : ℚ), (13255/8192 : ℚ), (26509/16384 : ℚ), (-31831/268435456 : ℚ)⟩, ⟨15, (26509/16384 : ℚ), (13255/8192 : ℚ), (53019/32768 : ℚ), (-54055/1073741824 : ℚ)⟩, ⟨16, (53019/32768 : ℚ), (13255/8192 : ℚ), (106039/65536 : ℚ), (-69679/4294967296 : ℚ)⟩, ⟨17, (106039/65536 : ℚ), (13255/8192 : ℚ), (212079/131072 : ℚ), (14369/17179869184 : ℚ)⟩] : List IterationRecord).length ≤ 21 := by
  have s1 : bissecaoLoop f1 (1/1000000 : ℚ) 100 1 (1 : ℚ) (2 : ℚ) (-1 : ℚ) (1 : ℚ) ([] : List IterationRecord) =
        bissecaoLoop f1 (1/1000000 : ℚ) 99 2 (3/2 : ℚ) (2 : ℚ) (-1/4 : ℚ) (1 : ℚ) [⟨1, (1 : ℚ), (2 : ℚ), (3/2 : ℚ), (-1/4 : ℚ)⟩] :=
      (bissecaoLoop_succ_right f1 (1/1000000 : ℚ) 99 1 (1 : ℚ) (2 : ℚ) (-1 : ℚ) (1 : ℚ) ([] : List IterationRecord)
        (by norm_num [f1, pyAbs]) (by norm_num [f1, pyAbs])).trans (by norm_num [f1])
  have s2 : bissecaoLoop f1 (1/1000000 : ℚ) 99 2 (3/2 : ℚ) (2 : ℚ) (-1/4 : ℚ) (1 : ℚ) [⟨1, (1 : ℚ), (2 : ℚ), (3/2 : ℚ), (-1/4 : ℚ)⟩] =
        bissecaoLoop f1 (1/1000000 : ℚ) 98 3 (3/2 : ℚ) (7/4 : ℚ) (-1/4 : ℚ) (5/16 : ℚ) [⟨1, (1 : ℚ), (2 : ℚ), (3/2 : ℚ), (-1/4 : ℚ)⟩, ⟨2, (3/2 : ℚ), (2 : ℚ), (7/4 : ℚ), (5/16 : ℚ)⟩] :=
      (bissecaoLoop_succ_left f1 (1/1000000 : ℚ) 98 2 (3/2 : ℚ) (2 : ℚ) (-1/4 : ℚ) (1 : ℚ) [⟨1, (1 : ℚ), (2 : ℚ), (3/2 : ℚ), (-1/4 : ℚ)⟩]
        (by norm_num [f1, pyAbs]) (by norm_num [f1, pyAbs])).trans (by norm_num [f1])
  have s3 : bissecaoLoop f1 (1/1000000 : ℚ) 98 3 (3/2 : ℚ) (7/4 : ℚ) (-1/4 : ℚ) (5/16 : ℚ) [⟨1, (1 : ℚ), (2 : ℚ), (3/2 : ℚ), (-1/4 : ℚ)⟩, ⟨2, (3/2 : ℚ), (2 : ℚ), (7/4 : ℚ), (5/16 : ℚ)⟩] =
        bissecaoLoop f1 (1/1000000 : ℚ) 97 4 (3/2 : ℚ) (13/8 : ℚ) (-1/4 : ℚ) (1/64 : ℚ) [⟨1, (1 : ℚ), (2 : ℚ), (3/2 : ℚ), (-1/4 : ℚ)⟩, ⟨2, (3/2 : ℚ), (2 : ℚ), (7/4 : ℚ), (5/16 : ℚ)⟩, ⟨3, (3/2 : ℚ), (7/4 : ℚ), (13/8 : ℚ), (1/64 : ℚ)⟩] :=
      (bissecaoLoop_succ_left f1 (1/1000000 : ℚ) 97 3 (3/2 : ℚ) (7/4 : ℚ) (-1/4 : ℚ) (5/16 : ℚ) [⟨1, (1 : ℚ), (2 : ℚ), (3/2 : ℚ), (-1/4 : ℚ)⟩, ⟨2, (3/2 : ℚ), (2 : ℚ), (7/4 : ℚ), (5/16 : ℚ)⟩]
        (by norm_num [f1, pyAbs]) (by norm_num [f1, pyAbs])).trans (by norm_num [f1])
  have s4 : bissecaoLoop f1 (1/1000000 : ℚ) 97 4 (3/2 : ℚ) (13/8 : ℚ) (-1/4 : ℚ) (1/64 : ℚ) [⟨1, (1 : ℚ), (2 : ℚ), (3/2 : ℚ), (-1/4 : ℚ)⟩, ⟨2, (3/2 : ℚ), (2 : ℚ), (7/4 : ℚ), (5/16 : ℚ)⟩, ⟨3, (3/2 : ℚ), (7/4 : ℚ), (13/8 : ℚ), (1/64 : ℚ)⟩] =
        bissecaoLoop f1 (1/1000000 : ℚ) 96 5 (25/16 : ℚ) (13/8 : ℚ) (-31/256 : ℚ) (1/64 : ℚ) [⟨1, (1 : ℚ), (2 : ℚ), (3/2 : ℚ), (-1/4 : ℚ)⟩, ⟨2, (3/2 : ℚ), (2 : ℚ), (7/4 : ℚ), (5/16 : ℚ)⟩, ⟨3, (3/2 : ℚ), (7/4 : ℚ), (13/8 : ℚ), (1/64 : ℚ)⟩, ⟨4, (3/2 : ℚ), (13/8 : ℚ), (25/16 : ℚ), (-31/256 : ℚ)⟩] :=
      (bissecaoLoop_succ_right f1 (1/1000000 : ℚ) 96 4 (3/2 : ℚ) (13/8 : ℚ) (-1/4 : ℚ) (1/64 : ℚ) [⟨1, (1 : ℚ), (2 : ℚ), (3/2 : ℚ), (-1/4 : ℚ)⟩, ⟨2, (3/2 : ℚ), (2 : ℚ), (7/4 : ℚ), (5/16 : ℚ)⟩, ⟨3, (3/2 : ℚ), (7/4 : ℚ), (13/8 : ℚ), (1/64 : ℚ)⟩]
        (by norm_num [f1, pyAbs]) (by norm_num [f1, pyAbs])).trans (by norm_num [f1])
  have s5 : bissecaoLoop f1 (1/1000000 : ℚ) 96 5 (25/16 : ℚ) (13/8 : ℚ) (-31/256 : ℚ) (1/64 : ℚ) [⟨1, (1 : ℚ), (2 : ℚ), (3/2 : ℚ), (-1/4 : ℚ)⟩, ⟨2, (3/2 : ℚ), (2 : ℚ), (7/4 : ℚ), (5/16 : ℚ)⟩, ⟨3, (3/2 : ℚ), (7/4 : ℚ), (13/8 : ℚ), (1/64 : ℚ)⟩, ⟨4, (3/2 : ℚ), (13/8 : ℚ), (25/16 : ℚ), (-31/256 : ℚ)⟩] =
        bissecaoLoop f1 (1/1000000 : ℚ) 95 6 (51/32 : ℚ) (13/8 : ℚ) (-55/1024 : ℚ) (1/64 : ℚ) [⟨1, (1 : ℚ), (2 : ℚ), (3/2 : ℚ), (-1/4 : ℚ)⟩, ⟨2, (3/2 : ℚ), (2 : ℚ), (7/4 : ℚ), (5/16 : ℚ)⟩, ⟨3, (3/2 : ℚ), (7/4 : ℚ), (13/8 : ℚ), (1/64 : ℚ)⟩, ⟨4, (3/2 : ℚ), (13/8 : ℚ), (25/16 : ℚ), (-31/256 : ℚ)⟩, ⟨5, (25/16 : ℚ), (13/8 : ℚ), (51/32 : ℚ), (-55/1024 : ℚ)⟩] :=
      (bissecaoLoop_succ_right f1 (1/1000000 : ℚ) 95 5 (25/16 : ℚ) (13/8 : ℚ) (-31/256 : ℚ) (1/64 : ℚ) [⟨1, (1 : ℚ), (2 : ℚ), (3/2 : ℚ), (-1/4 : ℚ)⟩, ⟨2, (3/2 : ℚ), (2 : ℚ), (7/4 : ℚ), (5/16 : ℚ)⟩, ⟨3, (3/2 : ℚ), (7/4 : ℚ), (13/8 : ℚ), (1/64 : ℚ)⟩, ⟨4, (3/2 : ℚ), (13/8 : ℚ), (25/16 : ℚ), (-31/256 : ℚ)⟩]
        (by norm_num [f1, pyAbs]) (by norm_num [f1, pyAbs])).trans (by norm_num [f1])
  have s6 : bissecaoLoop f1 (1/1000000 : ℚ) 95 6 (51/32 : ℚ) (13/8 : ℚ) (-55/1024 : ℚ) (1/64 : ℚ) [⟨1, (1 : ℚ), (2 : ℚ), (3/2 : ℚ), (-1/4 : ℚ)⟩, ⟨2, (3/2 : ℚ), (2 : ℚ), (7/4 : ℚ), (5/16 : ℚ)⟩, ⟨3, (3/2 : ℚ), (7/4 : ℚ), (13/8 : ℚ), (1/64 : ℚ)⟩, ⟨4, (3/2 : ℚ), (13/8 : ℚ), (25/16 : ℚ), (-31/256 : ℚ)⟩, ⟨5, (25/16 : ℚ), (13/8 : ℚ), (51/32 : ℚ), (-55/1024 : ℚ)⟩] =
        bissecaoLoop f1 (1/1000000 : ℚ) 94 7 (103/64 : ℚ) (13/8 : ℚ) (-79/4096 : ℚ) (1/64 : ℚ) [⟨1, (1 : ℚ), (2 : ℚ), (3/2 : ℚ), (-1/4 : ℚ)⟩, ⟨2, (3/2 : ℚ), (2 : ℚ), (7/4 : ℚ), (5/16 : ℚ)⟩, ⟨3, (3/2 : ℚ), (7/4 : ℚ), (13/8 : ℚ), (1/64 : ℚ)⟩, ⟨4, (3/2 : ℚ), (13/8 : ℚ), (25/16 : ℚ), (-31/256 : ℚ)⟩, ⟨5, (25/16 : ℚ), (13/8 : ℚ), (51/32 : ℚ), (-55/1024 : ℚ)⟩, ⟨6, (51/32 : ℚ), (13/8 : ℚ), (103/64 : ℚ), (-79/4096 : ℚ)⟩] :=
      (bissecaoLoop_succ_right f1 (1/1000000 : ℚ) 94 6 (51/32 : ℚ) (13/8 : ℚ) (-55/1024 : ℚ) (1/64 : ℚ) [⟨1, (1 : ℚ), (2 : ℚ), (3/2 : ℚ), (-1/4 : ℚ)⟩, ⟨2, (3/2 : ℚ), (2 : ℚ), (7/4 : ℚ), (5/16 : ℚ)⟩, ⟨3, (3/2 : ℚ), (7/4 : ℚ), (13/8 : ℚ), (1/64 : ℚ)⟩, ⟨4, (3/2 : ℚ), (13/8 : ℚ), (25/16 : ℚ), (-31/256 : ℚ)⟩, ⟨5, (25/16 : ℚ), (13/8 : ℚ), (51/32 : ℚ), (-55/1024 : ℚ)⟩]
        (by norm_num [f1, pyAbs]) (by norm_num [f1, pyAbs])).trans (by norm_num [f1])
  have s7 : bissecaoLoop f1 (1/1000000 : ℚ) 94 7 (103/64 : ℚ) (13/8 : ℚ) (-79/4096 : ℚ) (1/64 : ℚ) [⟨1, (1 : ℚ), (2 : ℚ), (3/2 : ℚ), (-1/4 : ℚ)⟩, ⟨2, (3/2 : ℚ), (2 : ℚ), (7/4 : ℚ), (5/16 : ℚ)⟩, ⟨3, (3/2 : ℚ), (7/4 : ℚ), (13/8 : ℚ), (1/64 : ℚ)⟩, ⟨4, (3/2 : ℚ), (13/8 : ℚ), (25/16 : ℚ), (-31/256 : ℚ)⟩, ⟨5, (25/16 : ℚ), (13/8 : ℚ), (51/32 : ℚ), (-55/1024 : ℚ)⟩, ⟨6, (51/32 : ℚ), (13/8 : ℚ), (103/64 : ℚ), (-79/4096 : ℚ)⟩] =
        bissecaoLoop f1 (1/1000000 : ℚ) 93 8 (207/128 : ℚ) (13/8 : ℚ) (-31/16384 : ℚ) (1/64 : ℚ) [⟨1, (1 : ℚ), (2 : ℚ), (3/2 : ℚ), (-1/4 : ℚ)⟩, ⟨2, (3/2 : ℚ), (2 : ℚ), (7/4 : ℚ), (5/16 : ℚ)⟩, ⟨3, (3/2 : ℚ), (7/4 : ℚ), (13/8 : ℚ), (1/64 : ℚ)⟩, ⟨4, (3/2 : ℚ), (13/8 : ℚ), (25/16 : ℚ), (-31/256 : ℚ)⟩, ⟨5, (25/16 : ℚ), (13/8 : ℚ), (51/32 : ℚ), (-55/1024 : ℚ)⟩, ⟨6, (51/32 : ℚ), (13/8 : ℚ), (103/64 : ℚ), (-79/4096 : ℚ)⟩, ⟨7, (103/64 : ℚ), (13/8 : ℚ), (207/128 : ℚ), (-31/16384 : ℚ)⟩] :=
      (bissecaoLoop_succ_right f1 (1/1000000 : ℚ) 93 7 (103/64 : ℚ) (13/8 : ℚ) (-79/4096 : ℚ) (1/64 : ℚ) [⟨1, (1 : ℚ), (2 : ℚ), (3/2 : ℚ), (-1/4 : ℚ)⟩, ⟨2, (3/2 : ℚ), (2 : ℚ), (7/4 : ℚ), (5/16 : ℚ)⟩, ⟨3, (3/2 : ℚ), (7/4 : ℚ), (13/8 : ℚ), (1/64 : ℚ)⟩, ⟨4, (3/2 : ℚ), (13/8 : ℚ), (25/16 : ℚ), (-31/256 : ℚ)⟩, ⟨5, (25/16 : ℚ), (13/8 : ℚ), (51/32 : ℚ), (-55/1024 : ℚ)⟩, ⟨6, (51/32 : ℚ), (13/8 : ℚ), (103/64 : ℚ), (-79/4096 : ℚ)⟩]
        (by norm_num [f1, pyAbs]) (by norm_num [f1, pyAbs])).trans (by norm_num [f1])
  have s8 : bissecaoLoop f1 (1/1000000 : ℚ) 93 8 (207/128 : ℚ) (13/8 : ℚ) (-31/16384 : ℚ) (1/64 : ℚ) [⟨1, (1 : ℚ), (2 : ℚ), (3/2 : ℚ), (-1/4 : ℚ)⟩, ⟨2, (3/2 : ℚ), (2 : ℚ), (7/4 : ℚ), (5/16 : ℚ)⟩, ⟨3, (3/2 : ℚ), (7/4 : ℚ), (13/8 : ℚ), (1/64 : ℚ)⟩, ⟨4, (3/2 : ℚ), (13/8 : ℚ), (25/16 : ℚ), (-31/256 : ℚ)⟩, ⟨5, (25/16 : ℚ), (13/8 : ℚ), (51/32 : ℚ), (-55/1024 : ℚ)⟩, ⟨6, (51/32 : ℚ), (13/8 : ℚ), (103/64 : ℚ), (-79/4096 : ℚ)⟩, ⟨7, (103/64 : ℚ), (13/8 : ℚ), (207/128 : ℚ), (-31/16384 : ℚ)⟩] =
        bissecaoLoop f1 (1/1000000 : ℚ) 92 9 (207/128 : ℚ) (415/256 : ℚ) (-31/16384 : ℚ) (449/65536 : ℚ) [⟨1, (1 : ℚ), (2 : ℚ), (3/2 : ℚ), (-1/4 : ℚ)⟩, ⟨2, (3/2 : ℚ), (2 : ℚ), (7/4 : ℚ), (5/16 : ℚ)⟩, ⟨3, (3/2 : ℚ), (7/4 : ℚ), (13/8 : ℚ), (1/64 : ℚ)⟩, ⟨4, (3/2 : ℚ), (13/8 : ℚ), (25/16 : ℚ), (-31/256 : ℚ)⟩, ⟨5, (25/16 : ℚ), (13/8 : ℚ), (51/32 : ℚ), (-55/1024 : ℚ)⟩, ⟨6, (51/32 : ℚ), (13/8 : ℚ), (103/64 : ℚ), (-79/4096 : ℚ)⟩, ⟨7, (103/64 : ℚ), (13/8 : ℚ), (207/128 : ℚ), (-31/16384 : ℚ)⟩, ⟨8, (207/128 : ℚ), (13/8 : ℚ), (415/256 : ℚ), (449/65536 : ℚ)⟩] :=
      (bissecaoLoop_succ_left f1 (1/1000000 : ℚ) 92 8 (207/128 : ℚ) (13/8 : ℚ) (-31/16384 : ℚ) (1/64 : ℚ) [⟨1, (1 : ℚ), (2 : ℚ), (3/2 : ℚ), (-1/4 : ℚ)⟩, ⟨2, (3/2 : ℚ), (2 : ℚ), (7/4 : ℚ), (5/16 : ℚ)⟩, ⟨3, (3/2 : ℚ), (7/4 : ℚ), (13/8 : ℚ), (1/64 : ℚ)⟩, ⟨4, (3/2 : ℚ), (13/8 : ℚ), (25/16 : ℚ), (-31/256 : ℚ)⟩, ⟨5, (25/16 : ℚ), (13/8 : ℚ), (51/32 : ℚ), (-55/1024 : ℚ)⟩, ⟨6, (51/32 : ℚ), (13/8 : ℚ), (103/64 : ℚ), (-79/4096 : ℚ)⟩, ⟨7, (103/64 : ℚ), (13/8 : ℚ), (207/128 : ℚ), (-31/16384 : ℚ)⟩]
        (by norm_num [f1, pyAbs]) (by norm_num [f1, pyAbs])).trans (by norm_num [f1])
  have s9 : bissecaoLoop f1 (1/1000000 : ℚ) 92 9 (207/128 : ℚ) (415/256 : ℚ) (-31/16384 : ℚ) (449/65536 : ℚ) [⟨1, (1 : ℚ), (2 : ℚ), (3/2 : ℚ), (-1/4 : ℚ)⟩, ⟨2, (3/2 : ℚ), (2 : ℚ), (7/4 : ℚ), (5/16 : ℚ)⟩, ⟨3, (3/2 : ℚ), (7/4 : ℚ), (13/8 : ℚ), (1/64 : ℚ)⟩, ⟨4, (3/2 : ℚ), (13/8 : ℚ), (25/16 : ℚ), (-31/256 : ℚ)⟩, ⟨5, (25/16 : ℚ), (13/8 : ℚ), (51/32 : ℚ), (-55/1024 : ℚ)⟩, ⟨6, (51/32 : ℚ), (13/8 : ℚ), (103/64 : ℚ), (-79/4096 : ℚ)⟩, ⟨7, (103/64 : ℚ), (13/8 : ℚ), (207/128 : ℚ), (-31/16384 : ℚ)⟩, ⟨8, (207/128 : ℚ), (13/8 : ℚ), (415/256 : ℚ), (449/65536 : ℚ)⟩] =
        bissecaoLoop f1 (1/1000000 : ℚ) 91 10 (207/128 : ℚ) (829/512 : ℚ) (-31/16384 : ℚ) (649/262144 : ℚ) [⟨1, (1 : ℚ), (2 : ℚ), (3/2 : ℚ), (-1/4 : ℚ)⟩, ⟨2, (3/2 : ℚ), (2 : ℚ), (7/4 : ℚ), (5/16 : ℚ)⟩, ⟨3, (3/2 : ℚ), (7/4 : ℚ), (13/8 : ℚ), (1/64 : ℚ)⟩, ⟨4, (3/2 : ℚ), (13/8 : ℚ), (25/16 : ℚ), (-31/256 : ℚ)⟩, ⟨5, (25/16 : ℚ), (13/8 : ℚ), (51/32 : ℚ), (-55/1024 : ℚ)⟩, ⟨6, (51/32 : ℚ), (13/8 : ℚ), (103/64 : ℚ), (-79/4096 : ℚ)⟩, ⟨7, (103/64 : ℚ), (13/8 : ℚ), (207/128 : ℚ), (-31/16384 : ℚ)⟩, ⟨8, (207/128 : ℚ), (13/8 : ℚ), (415/256 : ℚ), (449/65536 : ℚ)⟩, ⟨9, (207/128 : ℚ), (415/256 : ℚ), (829/512 : ℚ), (649/262144 : ℚ)⟩] :=
      (bissecaoLoop_succ_left f1 (1/1000000 : ℚ) 91 9 (207/128 : ℚ) (415/256 : ℚ) (-31/16384 : ℚ) (449/65536 : ℚ) [⟨1, (1 : ℚ), (2 : ℚ), (3/2 : ℚ), (-1/4 : ℚ)⟩, ⟨2, (3/2 : ℚ), (2 : ℚ), (7/4 : ℚ), (5/16 : ℚ)⟩, ⟨3, (3/2 : ℚ), (7/4 : ℚ), (13/8 : ℚ), (1/64 : ℚ)⟩, ⟨4, (3/2 : ℚ), (13/8 : ℚ), (25/16 : ℚ), (-31/256 : ℚ)⟩, ⟨5, (25/16 : ℚ), (13/8 : ℚ), (51/32 : ℚ), (-55/1024 : ℚ)⟩, ⟨6, (51/32 : ℚ), (13/8 : ℚ), (103/64 : ℚ), (-79/4096 : ℚ)⟩, ⟨7, (103/64 : ℚ), (13/8 : ℚ), (207/128 : ℚ), (-31/16384 : ℚ)⟩, ⟨8, (207/128 : ℚ), (13/8 : ℚ), (415/256 : ℚ), (449/65536 : ℚ)⟩]
        (by norm_num [f1, pyAbs]) (by norm_num [f1, pyAbs])).trans (by norm_num [f1])
  have s10 : bissecaoLoop f1 (1/1000000 : ℚ) 91 10 (207/128 : ℚ) (829/512 : ℚ) (-31/16384 : ℚ) (649/262144 : ℚ) [⟨1, (1 : ℚ), (2 : ℚ), (3/2 : ℚ), (-1/4 : ℚ)⟩, ⟨2, (3/2 : ℚ), (2 : ℚ), (7/4 : ℚ), (5/16 : ℚ)⟩, ⟨3, (3/2 : ℚ), (7/4 : ℚ), (13/8 : ℚ), (1/64 : ℚ)⟩, ⟨4, (3/2 : ℚ), (13/8 : ℚ), (25/16 : ℚ), (-31/256 : ℚ)⟩, ⟨5, (25/16 : ℚ), (13/8 : ℚ), (51/32 : ℚ), (-55/1024 : ℚ)⟩, ⟨6, (51/32 : ℚ), (13/8 : ℚ), (103/64 : ℚ), (-79/4096 : ℚ)⟩, ⟨7, (103/64 : ℚ), (13/8 : ℚ), (207/128 : ℚ), (-31/16384 : ℚ)⟩, ⟨8, (207/128 : ℚ), (13/8 : ℚ), (415/256 : ℚ), (449/65536 : ℚ)⟩, ⟨9, (207/128 : ℚ), (415/256 : ℚ), (829/512 : ℚ), (649/262144 : ℚ)⟩] =
        bissecaoLoop f1 (1/1000000 : ℚ) 90 11 (207/128 : ℚ) (1657/1024 : ℚ) (-31/16384 : ℚ) (305/1048576 : ℚ) [⟨1, (1 : ℚ), (2 : ℚ), (3/2 : ℚ), (-1/4 : ℚ)⟩, ⟨2, (3/2 : ℚ), (2 : ℚ), (7/4 : ℚ), (5/16 : ℚ)⟩, ⟨3, (3/2 : ℚ), (7/4 : ℚ), (13/8 : ℚ), (1/64 : ℚ)⟩, ⟨4, (3/2 : ℚ), (13/8 : ℚ), (25/16 : ℚ), (-31/256 : ℚ)⟩, ⟨5, (25/16 : ℚ), (13/8 : ℚ), (51/32 : ℚ), (-55/1024 : ℚ)⟩, ⟨6, (51/32 : ℚ), (13/8 : ℚ), (103/64 : ℚ), (-79/4096 : ℚ)⟩, ⟨7, (103/64 : ℚ), (13/8 : ℚ), (207/128 : ℚ), (-31/16384 : ℚ)⟩, ⟨8, (207/128 : ℚ), (13/8 : ℚ), (415/256 : ℚ), (449/65536 : ℚ)⟩, ⟨9, (207/128 : ℚ), (415/256 : ℚ), (829/512 : ℚ), (649/262144 : ℚ)⟩, ⟨10, (207/128 : ℚ), (829/512 : ℚ), (1657/1024 : ℚ), (305/1048576 : ℚ)⟩] :=
      (bissecaoLoop_succ_left f1 (1/1000000 : ℚ) 90 10 (207/128 : ℚ) (829/512 : ℚ) (-31/16384 : ℚ) (649/262144 : ℚ) [⟨1, (1 : ℚ), (2 : ℚ), (3/2 : ℚ), (-1/4 : ℚ)⟩, ⟨2, (3/2 : ℚ), (2 : ℚ), (7/4 : ℚ), (5/16 : ℚ)⟩, ⟨3, (3/2 : ℚ), (7/4 : ℚ), (13/8 : ℚ), (1/64 : ℚ)⟩, ⟨4, (3/2 : ℚ), (13/8 : ℚ), (25/16 : ℚ), (-31/256 : ℚ)⟩, ⟨5, (25/16 : ℚ), (13/8 : ℚ), (51/32 : ℚ), (-55/1024 : ℚ)⟩, ⟨6, (51/32 : ℚ), (13/8 : ℚ), (103/64 : ℚ), (-79/4096 : ℚ)⟩, ⟨7, (103/64 : ℚ), (13/8 : ℚ), (207/128 : ℚ), (-31/16384 : ℚ)⟩, ⟨8, (207/128 : ℚ), (13/8 : ℚ), (415/256 : ℚ), (449/65536 : ℚ)⟩, ⟨9, (207/128 : ℚ), (415/256 : ℚ), (829/512 : ℚ), (649/262144 : ℚ)⟩]
        (by norm_num [f1, pyAbs]) (by norm_num [f1, pyAbs])).trans (by norm_num [f1])
  have s11 : bissecaoLoop f1 (1/1000000 : ℚ) 90 11 (207/128 : ℚ) (1657/1024 : ℚ) (-31/16384 : ℚ) (305/1048576 : ℚ) [⟨1, (1 : ℚ), (2 : ℚ), (3/2 : ℚ), (-1/4 : ℚ)⟩, ⟨2, (3/2 : ℚ), (2 : ℚ), (7/4 : ℚ), (5/16 : ℚ)⟩, ⟨3, (3/2 : ℚ), (7/4 : ℚ), (13/8 : ℚ), (1/64 : ℚ)⟩, ⟨4, (3/2 : ℚ), (13/8 : ℚ), (25/16 : ℚ), (-31/256 : ℚ)⟩, ⟨5, (25/16 : ℚ), (13/8 : ℚ), (51/32 : ℚ), (-55/1024 : ℚ)⟩, ⟨6, (51/32 : ℚ), (13/8 : ℚ), (103/64 : ℚ), (-79/4096 : ℚ)⟩, ⟨7, (103/64 : ℚ), (13/8 : ℚ), (207/128 : ℚ), (-31/16384 : ℚ)⟩, ⟨8, (207/128 : ℚ), (13/8 : ℚ), (415/256 : ℚ), (449/65536 : ℚ)⟩, ⟨9, (207/128 : ℚ), (415/256 : ℚ), (829/512 : ℚ), (649/262144 : ℚ)⟩, ⟨10, (207/128 : ℚ), (829/512 : ℚ), (1657/1024 : ℚ), (305/1048576 : ℚ)⟩] =
        bissecaoLoop f1 (1/1000000 : ℚ) 89 12 (3313/2048 : ℚ) (1657/1024 : ℚ) (-3359/4194304 : ℚ) (305/1048576 : ℚ) [⟨1, (1 : ℚ), (2 : ℚ), (3/2 : ℚ), (-1/4 : ℚ)⟩, ⟨2, (3/2 : ℚ), (2 : ℚ), (7/4 : ℚ), (5/16 : ℚ)⟩, ⟨3, (3/2 : ℚ), (7/4 : ℚ), (13/8 : ℚ), (1/64 : ℚ)⟩, ⟨4, (3/2 : ℚ), (13/8 : ℚ), (25/16 : ℚ), (-31/256 : ℚ)⟩, ⟨5, (25/16 : ℚ), (13/8 : ℚ), (51/32 : ℚ), (-55/1024 : ℚ)⟩, ⟨6, (51/32 : ℚ), (13/8 : ℚ), (103/64 : ℚ), (-79/4096 : ℚ)⟩, ⟨7, (103/64 : ℚ), (13/8 : ℚ), (207/128 : ℚ), (-31/16384 : ℚ)⟩, ⟨8, (207/128 : ℚ), (13/8 : ℚ), (415/256 : ℚ), (449/65536 : ℚ)⟩, ⟨9, (207/128 : ℚ), (415/256 : ℚ), (829/512 : ℚ), (649/262144 : ℚ)⟩, ⟨10, (207/128 : ℚ), (829/512 : ℚ), (1657/1024 : ℚ), (305/1048576 : ℚ)⟩, ⟨11, (207/128 : ℚ), (1657/1024 : ℚ), (3313/2048 : ℚ), (-3359/4194304 : ℚ)⟩] :=
      (bissecaoLoop_succ_right f1 (1/1000000 : ℚ) 89 11 (207/128 : ℚ) (1657/1024 : ℚ) (-31/16384 : ℚ) (305/1048576 : ℚ) [⟨1, (1 : ℚ), (2 : ℚ), (3/2 : ℚ), (-1/4 : ℚ)⟩, ⟨2, (3/2 : ℚ), (2 : ℚ), (7/4 : ℚ), (5/16 : ℚ)⟩, ⟨3, (3/2 : ℚ), (7/4 : ℚ), (13/8 : ℚ), (1/64 : ℚ)⟩, ⟨4, (3/2 : ℚ), (13/8 : ℚ), (25/16 : ℚ), (-31/256 : ℚ)⟩, ⟨5, (25/16 : ℚ), (13/8 : ℚ), (51/32 : ℚ), (-55/1024 : ℚ)⟩, ⟨6, (51/32 : ℚ), (13/8 : ℚ), (103/64 : ℚ), (-79/4096 : ℚ)⟩, ⟨7, (103/64 : ℚ), (13/8 : ℚ), (207/128 : ℚ), (-31/16384 : ℚ)⟩, ⟨8, (207/128 : ℚ), (13/8 : ℚ), (415/256 : ℚ), (449/65536 : ℚ)⟩, ⟨9, (207/128 : ℚ), (415/256 : ℚ), (829/512 : ℚ), (649/262144 : ℚ)⟩, ⟨10, (207/128 : ℚ), (829/512 : ℚ), (1657/1024 : ℚ), (305/1048576 : ℚ)⟩]
        (by norm_num [f1, pyAbs]) (by norm_num [f1, pyAbs])).trans (by norm_num [f1])
  have s12 : bissecaoLoop f1 (1/1000000 : ℚ) 89 12 (3313/2048 : ℚ) (1657/1024 : ℚ) (-3359/4194304 : ℚ) (305/1048576 : ℚ) [⟨1, (1 : ℚ), (2 : ℚ), (3/2 : ℚ), (-1/4 : ℚ)⟩, ⟨2, (3/2 : ℚ), (2 : ℚ), (7/4 : ℚ), (5/16 : ℚ)⟩, ⟨3, (3/2 : ℚ), (7/4 : ℚ), (13/8 : ℚ), (1/64 : ℚ)⟩, ⟨4, (3/2 : ℚ), (13/8 : ℚ), (25/16 : ℚ), (-31/256 : ℚ)⟩, ⟨5, (25/16 : ℚ), (13/8 : ℚ), (51/32 : ℚ), (-55/1024 : ℚ)⟩, ⟨6, (51/32 : ℚ), (13/8 : ℚ), (103/64 : ℚ), (-79/4096 : ℚ)⟩, ⟨7, (103/64 : ℚ), (13/8 : ℚ), (207/128 : ℚ), (-31/16384 : ℚ)⟩, ⟨8, (207/128 : ℚ), (13/8 : ℚ), (415/256 : ℚ), (449/65536 : ℚ)⟩, ⟨9, (207/128 : ℚ), (415/256 : ℚ), (829/512 : ℚ), (649/262144 : ℚ)⟩, ⟨10, (207/128 : ℚ), (829/512 : ℚ), (1657/1024 : ℚ), (305/1048576 : ℚ)⟩, ⟨11, (207/128 : ℚ), (1657/1024 : ℚ), (3313/2048 : ℚ), (-3359/4194304 : ℚ)⟩] =
        bissecaoLoop f1 (1/1000000 : ℚ) 88 13 (6627/4096 : ℚ) (1657/1024 : ℚ) (-4279/16777216 : ℚ) (305/1048576 : ℚ) [⟨1, (1 : ℚ), (2 : ℚ), (3/2 : ℚ), (-1/4 : ℚ)⟩, ⟨2, (3/2 : ℚ), (2 : ℚ), (7/4 : ℚ), (5/16 : ℚ)⟩, ⟨3, (3/2 : ℚ), (7/4 : ℚ), (13/8 : ℚ), (1/64 : ℚ)⟩, ⟨4, (3/2 : ℚ), (13/8 : ℚ), (25/16 : ℚ), (-31/256 : ℚ)⟩, ⟨5, (25/16 : ℚ), (13/8 : ℚ), (51/32 : ℚ), (-55/1024 : ℚ)⟩, ⟨6, (51/32 : ℚ), (13/8 : ℚ), (103/64 : ℚ), (-79/4096 : ℚ)⟩, ⟨7, (103/64 : ℚ), (13/8 : ℚ), (207/128 : ℚ), (-31/16384 : ℚ)⟩, ⟨8, (207/128 : ℚ), (13/8 : ℚ), (415/256 : ℚ), (449/65536 : ℚ)⟩, ⟨9, (207/128 : ℚ), (415/256 : ℚ), (829/512 : ℚ), (649/262144 : ℚ)⟩, ⟨10, (207/128 : ℚ), (829/512 : ℚ), (1657/1024 : ℚ), (305/1048576 : ℚ)⟩, ⟨11, (207/128 : ℚ), (1657/1024 : ℚ), (3313/2048 : ℚ), (-3359/4194304 : ℚ)⟩, ⟨12, (3313/2048 : ℚ), (1657/1024 : ℚ), (6627/4096 : ℚ), (-4279/16777216 : ℚ)⟩] :=
      (bissecaoLoop_succ_right f1 (1/1000000 : ℚ) 88 12 (3313/2048 : ℚ) (1657/1024 : ℚ) (-3359/4194304 : ℚ) (305/1048576 : ℚ) [⟨1, (1 : ℚ), (2 : ℚ), (3/2 : ℚ), (-1/4 : ℚ)⟩, ⟨2, (3/2 : ℚ), (2 : ℚ), (7/4 : ℚ), (5/16 : ℚ)⟩, ⟨3, (3/2 : ℚ), (7/4 : ℚ), (13/8 : ℚ), (1/64 : ℚ)⟩, ⟨4, (3/2 : ℚ), (13/8 : ℚ), (25/16 : ℚ), (-31/256 : ℚ)⟩, ⟨5, (25/16 : ℚ), (13/8 : ℚ), (51/32 : ℚ), (-55/1024 : ℚ)⟩, ⟨6, (51/32 : ℚ), (13/8 : ℚ), (103/64 : ℚ), (-79/4096 : ℚ)⟩, ⟨7, (103/64 : ℚ), (13/8 : ℚ), (207/128 : ℚ), (-31/16384 : ℚ)⟩, ⟨8, (207/128 : ℚ), (13/8 : ℚ), (415/256 : ℚ), (449/65536 : ℚ)⟩, ⟨9, (207/128 : ℚ), (415/256 : ℚ), (829/512 : ℚ), (649/262144 : ℚ)⟩, ⟨10, (207/128 : ℚ), (829/512 : ℚ), (1657/1024 : ℚ), (305/1048576 : ℚ)⟩, ⟨11, (207/128 : ℚ), (1657/1024 : ℚ), (3313/2048 : ℚ), (-3359/4194304 : ℚ)⟩]
        (by norm_num [f1, pyAbs]) (by norm_num [f1, pyAbs])).trans (by norm_num [f1])
  have s13 : bissecaoLoop f1 (1/1000000 : ℚ) 88 13 (6627/4096 : ℚ) (1657/1024 : ℚ) (-4279/16777216 : ℚ) (305/1048576 : ℚ) [⟨1, (1 : ℚ), (2 : ℚ), (3/2 : ℚ), (-1/4 : ℚ)⟩, ⟨2, (3/2 : ℚ), (2 : ℚ), (7/4 : ℚ), (5/16 : ℚ)⟩, ⟨3, (3/2 : ℚ), (7/4 : ℚ), (13/8 : ℚ), (1/64 : ℚ)⟩, ⟨4, (3/2 : ℚ), (13/8 : ℚ), (25/16 : ℚ), (-31/256 : ℚ)⟩, ⟨5, (25/16 : ℚ), (13/8 : ℚ), (51/32 : ℚ), (-55/1024 : ℚ)⟩, ⟨6, (51/32 : ℚ), (13/8 : ℚ), (103/64 : ℚ), (-79/4096 : ℚ)⟩, ⟨7, (103/64 : ℚ), (13/8 : ℚ), (207/128 : ℚ), (-31/16384 : ℚ)⟩, ⟨8, (207/128 : ℚ), (13/8 : ℚ), (415/256 : ℚ), (449/65536 : ℚ)⟩, ⟨9, (207/128 : ℚ), (415/256 : ℚ), (829/512 : ℚ), (649/262144 : ℚ)⟩, ⟨10, (207/128 : ℚ), (829/512 : ℚ), (1657/1024 : ℚ), (305/1048576 : ℚ)⟩, ⟨11, (207/128 : ℚ), (1657/1024 : ℚ), (3313/2048 : ℚ), (-3359/4194304 : ℚ)⟩, ⟨12, (3313/2048 : ℚ), (1657/1024 : ℚ), (6627/4096 : ℚ), (-4279/16777216 : ℚ)⟩] =
        bissecaoLoop f1 (1/1000000 : ℚ) 87 14 (6627/4096 : ℚ) (13255/8192 : ℚ) (-4279/16777216 : ℚ) (1201/67108864 : ℚ) [⟨1, (1 : ℚ), (2 : ℚ), (3/2 : ℚ), (-1/4 : ℚ)⟩, ⟨2, (3/2 : ℚ), (2 : ℚ), (7/4 : ℚ), (5/16 : ℚ)⟩, ⟨3, (3/2 : ℚ), (7/4 : ℚ), (13/8 : ℚ), (1/64 : ℚ)⟩, ⟨4, (3/2 : ℚ), (13/8 : ℚ), (25/16 : ℚ), (-31/256 : ℚ)⟩, ⟨5, (25/16 : ℚ), (13/8 : ℚ), (51/32 : ℚ), (-55/1024 : ℚ)⟩, ⟨6, (51/32 : ℚ), (13/8 : ℚ), (103/64 : ℚ), (-79/4096 : ℚ)⟩, ⟨7, (103/64 : ℚ), (13/8 : ℚ), (207/128 : ℚ), (-31/16384 : ℚ)⟩, ⟨8, (207/128 : ℚ), (13/8 : ℚ), (415/256 : ℚ), (449/65536 : ℚ)⟩, ⟨9, (207/128 : ℚ), (415/256 : ℚ), (829/512 : ℚ), (649/262144 : ℚ)⟩, ⟨10, (207/128 : ℚ), (829/512 : ℚ), (1657/1024 : ℚ), (305/1048576 : ℚ)⟩, ⟨11, (207/128 : ℚ), (1657/1024 : ℚ), (3313/2048 : ℚ), (-3359/4194304 : ℚ)⟩, ⟨12, (3313/2048 : ℚ), (1657/1024 : ℚ), (6627/4096 : ℚ), (-4279/16777216 : ℚ)⟩, ⟨13, (6627/4096 : ℚ), (1657/1024 : ℚ), (13255/8192 : ℚ), (1201/67108864 : ℚ)⟩] :=
      (bissecaoLoop_succ_left f1 (1/1000000 : ℚ) 87 13 (6627/4096 : ℚ) (1657/1024 : ℚ) (-4279/16777216 : ℚ) (305/1048576 : ℚ) [⟨1, (1 : ℚ), (2 : ℚ), (3/2 : ℚ), (-1/4 : ℚ)⟩, ⟨2, (3/2 : ℚ), (2 : ℚ), (7/4 : ℚ), (5/16 : ℚ)⟩, ⟨3, (3/2 : ℚ), (7/4 : ℚ), (13/8 : ℚ), (1/64 : ℚ)⟩, ⟨4, (3/2 : ℚ), (13/8 : ℚ), (25/16 : ℚ), (-31/256 : ℚ)⟩, ⟨5, (25/16 : ℚ), (13/8 : ℚ), (51/32 : ℚ), (-55/1024 : ℚ)⟩, ⟨6, (51/32 : ℚ), (13/8 : ℚ), (103/64 : ℚ), (-79/4096 : ℚ)⟩, ⟨7, (103/64 : ℚ), (13/8 : ℚ), (207/128 : ℚ), (-31/16384 : ℚ)⟩, ⟨8, (207/128 : ℚ), (13/8 : ℚ), (415/256 : ℚ), (449/65536 : ℚ)⟩, ⟨9, (207/128 : ℚ), (415/256 : ℚ), (829/512 : ℚ), (649/262144 : ℚ)⟩, ⟨10, (207/128 : ℚ), (829/512 : ℚ), (1657/1024 : ℚ), (305/1048576 : ℚ)⟩, ⟨11, (207/128 : ℚ), (1657/1024 : ℚ), (3313/2048 : ℚ), (-3359/4194304 : ℚ)⟩, ⟨12, (3313/2048 : ℚ), (1657/1024 : ℚ), (6627/4096 : ℚ), (-4279/16777216 : ℚ)⟩]
        (by norm_num [f1, pyAbs]) (by norm_num [f1, pyAbs])).trans (by norm_num [f1])
  have s14 : bissecaoLoop f1 (1/1000000 : ℚ) 87 14 (6627/4096 : ℚ) (13255/8192 : ℚ) (-4279/16777216 : ℚ) (1201/67108864 : ℚ) [⟨1, (1 : ℚ), (2 : ℚ), (3/2 : ℚ), (-1/4 : ℚ)⟩, ⟨2, (3/2 : ℚ), (2 : ℚ), (7/4 : ℚ), (5/16 : ℚ)⟩, ⟨3, (3/2 : ℚ), (7/4 : ℚ), (13/8 : ℚ), (1/64 : ℚ)⟩, ⟨4, (3/2 : ℚ), (13/8 : ℚ), (25/16 : ℚ), (-31/256 : ℚ)⟩, ⟨5, (25/16 : ℚ), (13/8 : ℚ), (51/32 : ℚ), (-55/1024 : ℚ)⟩, ⟨6, (51/32 : ℚ), (13/8 : ℚ), (103/64 : ℚ), (-79/4096 : ℚ)⟩, ⟨7, (103/64 : ℚ), (13/8 : ℚ), (207/128 : ℚ), (-31/16384 : ℚ)⟩, ⟨8, (207/128 : ℚ), (13/8 : ℚ), (415/256 : ℚ), (449/65536 : ℚ)⟩, ⟨9, (207/128 : ℚ), (415/256 : ℚ), (829/512 : ℚ), (649/262144 : ℚ)⟩, ⟨10, (207/128 : ℚ), (829/512 : ℚ), (1657/1024 : ℚ), (305/1048576 : ℚ)⟩, ⟨11, (207/128 : ℚ), (1657/1024 : ℚ), (3313/2048 : ℚ), (-3359/4194304 : ℚ)⟩, ⟨12, (3313/2048 : ℚ), (1657/1024 : ℚ), (6627/4096 : ℚ), (-4279/16777216 : ℚ)⟩, ⟨13, (6627/4096 : ℚ), (1657/1024 : ℚ), (13255/8192 : ℚ), (1201/67108864 : ℚ)⟩] =
        bissecaoLoop f1 (1/1000000 : ℚ) 86 15 (26509/16384 : ℚ) (13255/8192 : ℚ) (-31831/268435456 : ℚ) (1201/67108864 : ℚ) [⟨1, (1 : ℚ), (2 : ℚ), (3/2 : ℚ), (-1/4 : ℚ)⟩, ⟨2, (3/2 : ℚ), (2 : ℚ), (7/4 : ℚ), (5/16 : ℚ)⟩, ⟨3, (3/2 : ℚ), (7/4 : ℚ), (13/8 : ℚ), (1/64 : ℚ)⟩, ⟨4, (3/2 : ℚ), (13/8 : ℚ), (25/16 : ℚ), (-31/256 : ℚ)⟩, ⟨5, (25/16 : ℚ), (13/8 : ℚ), (51/32 : ℚ), (-55/1024 : ℚ)⟩, ⟨6, (51/32 : ℚ), (13/8 : ℚ), (103/64 : ℚ), (-79/4096 : ℚ)⟩, ⟨7, (103/64 : ℚ), (13/8 : ℚ), (207/128 : ℚ), (-31/16384 : ℚ)⟩, ⟨8, (207/128 : ℚ), (13/8 : ℚ), (415/256 : ℚ), (449/65536 : ℚ)⟩, ⟨9, (207/128 : ℚ), (415/256 : ℚ), (829/512 : ℚ), (649/262144 : ℚ)⟩, ⟨10, (207/128 : ℚ), (829/512 : ℚ), (1657/1024 : ℚ), (305/1048576 : ℚ)⟩, ⟨11, (207/128 : ℚ), (1657/1024 : ℚ), (3313/2048 : ℚ), (-3359/4194304 : ℚ)⟩, ⟨12, (3313/2048 : ℚ), (1657/1024 : ℚ), (6627/4096 : ℚ), (-4279/16777216 : ℚ)⟩, ⟨13, (6627/4096 : ℚ), (1657/1024 : ℚ), (13255/8192 : ℚ), (1201/67108864 : ℚ)⟩, ⟨14, (6627/4096 : ℚ), (13255/8192 : ℚ), (26509/16384 : ℚ), (-31831/268435456 : ℚ)⟩] :=
      (bissecaoLoop_succ_right f1 (1/1000000 : ℚ) 86 14 (6627/4096 : ℚ) (13255/8192 : ℚ) (-4279/16777216 : ℚ) (1201/67108864 : ℚ) [⟨1, (1 : ℚ), (2 : ℚ), (3/2 : ℚ), (-1/4 : ℚ)⟩, ⟨2, (3/2 : ℚ), (2 : ℚ), (7/4 : ℚ), (5/16 : ℚ)⟩, ⟨3, (3/2 : ℚ), (7/4 : ℚ), (13/8 : ℚ), (1/64 : ℚ)⟩, ⟨4, (3/2 : ℚ), (13/8 : ℚ), (25/16 : ℚ), (-31/256 : ℚ)⟩, ⟨5, (25/16 : ℚ), (13/8 : ℚ), (51/32 : ℚ), (-55/1024 : ℚ)⟩, ⟨6, (51/32 : ℚ), (13/8 : ℚ), (103/64 : ℚ), (-79/4096 : ℚ)⟩, ⟨7, (103/64 : ℚ), (13/8 : ℚ), (207/128 : ℚ), (-31/16384 : ℚ)⟩, ⟨8, (207/128 : ℚ), (13/8 : ℚ), (415/256 : ℚ), (449/65536 : ℚ)⟩, ⟨9, (207/128 : ℚ), (415/256 : ℚ), (829/512 : ℚ), (649/262144 : ℚ)⟩, ⟨10, (207/128 : ℚ), (829/512 : ℚ), (1657/1024 : ℚ), (305/1048576 : ℚ)⟩, ⟨11, (207/128 : ℚ), (1657/1024 : ℚ), (3313/2048 : ℚ), (-3359/4194304 : ℚ)⟩, ⟨12, (3313/2048 : ℚ), (1657/1024 : ℚ), (6627/4096 : ℚ), (-4279/16777216 : ℚ)⟩, ⟨13, (6627/4096 : ℚ), (1657/1024 : ℚ), (13255/8192 : ℚ), (1201/67108864 : ℚ)⟩]
        (by norm_num [f1, pyAbs]) (by norm_num [f1, pyAbs])).trans (by norm_num [f1])
  have s15 : bissecaoLoop f1 (1/1000000 : ℚ) 86 15 (26509/16384 : ℚ) (13255/8192 : ℚ) (-31831/268435456 : ℚ) (1201/67108864 : ℚ) [⟨1, (1 : ℚ), (2 : ℚ), (3/2 : ℚ), (-1/4 : ℚ)⟩, ⟨2, (3/2 : ℚ), (2 : ℚ), (7/4 : ℚ), (5/16 : ℚ)⟩, ⟨3, (3/2 : ℚ), (7/4 : ℚ), (13/8 : ℚ), (1/64 : ℚ)⟩, ⟨4, (3/2 : ℚ), (13/8 : ℚ), (25/16 : ℚ), (-31/256 : ℚ)⟩, ⟨5, (25/16 : ℚ), (13/8 : ℚ), (51/32 : ℚ), (-55/1024 : ℚ)⟩, ⟨6, (51/32 : ℚ), (13/8 : ℚ), (103/64 : ℚ), (-79/4096 : ℚ)⟩, ⟨7, (103/64 : ℚ), (13/8 : ℚ), (207/128 : ℚ), (-31/16384 : ℚ)⟩, ⟨8, (207/128 : ℚ), (13/8 : ℚ), (415/256 : ℚ), (449/65536 : ℚ)⟩, ⟨9, (207/128 : ℚ), (415/256 : ℚ), (829/512 : ℚ), (649/262144 : ℚ)⟩, ⟨10, (207/128 : ℚ), (829/512 : ℚ), (1657/1024 : ℚ), (305/1048576 : ℚ)⟩, ⟨11, (207/128 : ℚ), (1657/1024 : ℚ), (3313/2048 : ℚ), (-3359/4194304 : ℚ)⟩, ⟨12, (3313/2048 : ℚ), (1657/1024 : ℚ), (6627/4096 : ℚ), (-4279/16777216 : ℚ)⟩, ⟨13, (6627/4096 : ℚ), (1657/1024 : ℚ), (13255/8192 : ℚ), (1201/67108864 : ℚ)⟩, ⟨14, (6627/4096 : ℚ), (13255/8192 : ℚ), (26509/16384 : ℚ), (-31831/268435456 : ℚ)⟩] =
        bissecaoLoop f1 (1/1000000 : ℚ) 85 16 (53019/32768 : ℚ) (13255/8192 : ℚ) (-54055/1073741824 : ℚ) (1201/67108864 : ℚ) [⟨1, (1 : ℚ), (2 : ℚ), (3/2 : ℚ), (-1/4 : ℚ)⟩, ⟨2, (3/2 : ℚ), (2 : ℚ), (7/4 : ℚ), (5/16 : ℚ)⟩, ⟨3, (3/2 : ℚ), (7/4 : ℚ), (13/8 : ℚ), (1/64 : ℚ)⟩, ⟨4, (3/2 : ℚ), (13/8 : ℚ), (25/16 : ℚ), (-31/256 : ℚ)⟩, ⟨5, (25/16 : ℚ), (13/8 : ℚ), (51/32 : ℚ), (-55/1024 : ℚ)⟩, ⟨6, (51/32 : ℚ), (13/8 : ℚ), (103/64 : ℚ), (-79/4096 : ℚ)⟩, ⟨7, (103/64 : ℚ), (13/8 : ℚ), (207/128 : ℚ), (-31/16384 : ℚ)⟩, ⟨8, (207/128 : ℚ), (13/8 : ℚ), (415/256 : ℚ), (449/65536 : ℚ)⟩, ⟨9, (207/128 : ℚ), (415/256 : ℚ), (829/512 : ℚ), (649/262144 : ℚ)⟩, ⟨10, (207/128 : ℚ), (829/512 : ℚ), (1657/1024 : ℚ), (305/1048576 : ℚ)⟩, ⟨11, (207/128 : ℚ), (1657/1024 : ℚ), (3313/2048 : ℚ), (-3359/4194304 : ℚ)⟩, ⟨12, (3313/2048 : ℚ), (1657/1024 : ℚ), (6627/4096 : ℚ), (-4279/16777216 : ℚ)⟩, ⟨13, (6627/4096 : ℚ), (1657/1024 : ℚ), (13255/8192 : ℚ), (1201/67108864 : ℚ)⟩, ⟨14, (6627/4096 : ℚ), (13255/8192 : ℚ), (26509/16384 : ℚ), (-31831/268435456 : ℚ)⟩, ⟨15, (26509/16384 : ℚ), (13255/8192 : ℚ), (53019/32768 : ℚ), (-54055/1073741824 : ℚ)⟩] :=
      (bissecaoLoop_succ_right f1 (1/1000000 : ℚ) 85 15 (26509/16384 : ℚ) (13255/8192 : ℚ) (-31831/268435456 : ℚ) (1201/67108864 : ℚ) [⟨1, (1 : ℚ), (2 : ℚ), (3/2 : ℚ), (-1/4 : ℚ)⟩, ⟨2, (3/2 : ℚ), (2 : ℚ), (7/4 : ℚ), (5/16 : ℚ)⟩, ⟨3, (3/2 : ℚ), (7/4 : ℚ), (13/8 : ℚ), (1/64 : ℚ)⟩, ⟨4, (3/2 : ℚ), (13/8 : ℚ), (25/16 : ℚ), (-31/256 : ℚ)⟩, ⟨5, (25/16 : ℚ), (13/8 : ℚ), (51/32 : ℚ), (-55/1024 : ℚ)⟩, ⟨6, (51/32 : ℚ), (13/8 : ℚ), (103/64 : ℚ), (-79/4096 : ℚ)⟩, ⟨7, (103/64 : ℚ), (13/8 : ℚ), (207/128 : ℚ), (-31/16384 : ℚ)⟩, ⟨8, (207/128 : ℚ), (13/8 : ℚ), (415/256 : ℚ), (449/65536 : ℚ)⟩, ⟨9, (207/128 : ℚ), (415/256 : ℚ), (829/512 : ℚ), (649/262144 : ℚ)⟩, ⟨10, (207/128 : ℚ), (829/512 : ℚ), (1657/1024 : ℚ), (305/1048576 : ℚ)⟩, ⟨11, (207/128 : ℚ), (1657/1024 : ℚ), (3313/2048 : ℚ), (-3359/4194304 : ℚ)⟩, ⟨12, (3313/2048 : ℚ), (1657/1024 : ℚ), (6627/4096 : ℚ), (-4279/16777216 : ℚ)⟩, ⟨13, (6627/4096 : ℚ), (1657/1024 : ℚ), (13255/8192 : ℚ), (1201/67108864 : ℚ)⟩, ⟨14, (6627/4096 : ℚ), (13255/8192 : ℚ), (26509/16384 : ℚ), (-31831/268435456 : ℚ)⟩]
        (by norm_num [f1, pyAbs]) (by norm_num [f1, pyAbs])).trans (by norm_num [f1])
  have s16 : bissecaoLoop f1 (1/1000000 : ℚ) 85 16 (53019/32768 : ℚ) (13255/8192 : ℚ) (-54055/1073741824 : ℚ) (1201/67108864 : ℚ) [⟨1, (1 : ℚ), (2 : ℚ), (3/2 : ℚ), (-1/4 : ℚ)⟩, ⟨2, (3/2 : ℚ), (2 : ℚ), (7/4 : ℚ), (5/16 : ℚ)⟩, ⟨3, (3/2 : ℚ), (7/4 : ℚ), (13/8 : ℚ), (1/64 : ℚ)⟩, ⟨4, (3/2 : ℚ), (13/8 : ℚ), (25/16 : ℚ), (-31/256 : ℚ)⟩, ⟨5, (25/16 : ℚ), (13/8 : ℚ), (51/32 : ℚ), (-55/1024 : ℚ)⟩, ⟨6, (51/32 : ℚ), (13/8 : ℚ), (103/64 : ℚ), (-79/4096 : ℚ)⟩, ⟨7, (103/64 : ℚ), (13/8 : ℚ), (207/128 : ℚ), (-31/16384 : ℚ)⟩, ⟨8, (207/128 : ℚ), (13/8 : ℚ), (415/256 : ℚ), (449/65536 : ℚ)⟩, ⟨9, (207/128 : ℚ), (415/256 : ℚ), (829/512 : ℚ), (649/262144 : ℚ)⟩, ⟨10, (207/128 : ℚ), (829/512 : ℚ), (1657/1024 : ℚ), (305/1048576 : ℚ)⟩, ⟨11, (207/128 : ℚ), (1657/1024 : ℚ), (3313/2048 : ℚ), (-3359/4194304 : ℚ)⟩, ⟨12, (3313/2048 : ℚ), (1657/1024 : ℚ), (6627/4096 : ℚ), (-4279/16777216 : ℚ)⟩, ⟨13, (6627/4096 : ℚ), (1657/1024 : ℚ), (13255/8192 : ℚ), (1201/67108864 : ℚ)⟩, ⟨14, (6627/4096 : ℚ), (13255/8192 : ℚ), (26509/16384 : ℚ), (-31831/268435456 : ℚ)⟩, ⟨15, (26509/16384 : ℚ), (13255/8192 : ℚ), (53019/32768 : ℚ), (-54055/1073741824 : ℚ)⟩] =
        bissecaoLoop f1 (1/1000000 : ℚ) 84 17 (106039/65536 : ℚ) (13255/8192 : ℚ) (-69679/4294967296 : ℚ) (1201/67108864 : ℚ) [⟨1, (1 : ℚ), (2 : ℚ), (3/2 : ℚ), (-1/4 : ℚ)⟩, ⟨2, (3/2 : ℚ), (2 : ℚ), (7/4 : ℚ), (5/16 : ℚ)⟩, ⟨3, (3/2 : ℚ), (7/4 : ℚ), (13/8 : ℚ), (1/64 : ℚ)⟩, ⟨4, (3/2 : ℚ), (13/8 : ℚ), (25/16 : ℚ), (-31/256 : ℚ)⟩, ⟨5, (25/16 : ℚ), (13/8 : ℚ), (51/32 : ℚ), (-55/1024 : ℚ)⟩, ⟨6, (51/32 : ℚ), (13/8 : ℚ), (103/64 : ℚ), (-79/4096 : ℚ)⟩, ⟨7, (103/64 : ℚ), (13/8 : ℚ), (207/128 : ℚ), (-31/16384 : ℚ)⟩, ⟨8, (207/128 : ℚ), (13/8 : ℚ), (415/256 : ℚ), (449/65536 : ℚ)⟩, ⟨9, (207/128 : ℚ), (415/256 : ℚ), (829/512 : ℚ), (649/262144 : ℚ)⟩, ⟨10, (207/128 : ℚ), (829/512 : ℚ), (1657/1024 : ℚ), (305/1048576 : ℚ)⟩, ⟨11, (207/128 : ℚ), (1657/1024 : ℚ), (3313/2048 : ℚ), (-3359/4194304 : ℚ)⟩, ⟨12, (3313/2048 : ℚ), (1657/1024 : ℚ), (6627/4096 : ℚ), (-4279/16777216 : ℚ)⟩, ⟨13, (6627/4096 : ℚ), (1657/1024 : ℚ), (13255/8192 : ℚ), (1201/67108864 : ℚ)⟩, ⟨14, (6627/4096 : ℚ), (13255/8192 : ℚ), (26509/16384 : ℚ), (-31831/268435456 : ℚ)⟩, ⟨15, (26509/16384 : ℚ), (13255/8192 : ℚ), (53019/32768 : ℚ), (-54055/1073741824 : ℚ)⟩, ⟨16, (53019/32768 : ℚ), (13255/8192 : ℚ), (106039/65536 : ℚ), (-69679/4294967296 : ℚ)⟩] :=
      (bissecaoLoop_succ_right f1 (1/1000000 : ℚ) 84 16 (53019/32768 : ℚ) (13255/8192 : ℚ) (-54055/1073741824 : ℚ) (1201/67108864 : ℚ) [⟨1, (1 : ℚ), (2 : ℚ), (3/2 : ℚ), (-1/4 : ℚ)⟩, ⟨2, (3/2 : ℚ), (2 : ℚ), (7/4 : ℚ), (5/16 : ℚ)⟩, ⟨3, (3/2 : ℚ), (7/4 : ℚ), (13/8 : ℚ), (1/64 : ℚ)⟩, ⟨4, (3/2 : ℚ), (13/8 : ℚ), (25/16 : ℚ), (-31/256 : ℚ)⟩, ⟨5, (25/16 : ℚ), (13/8 : ℚ), (51/32 : ℚ), (-55/1024 : ℚ)⟩, ⟨6, (51/32 : ℚ), (13/8 : ℚ), (103/64 : ℚ), (-79/4096 : ℚ)⟩, ⟨7, (103/64 : ℚ), (13/8 : ℚ), (207/128 : ℚ), (-31/16384 : ℚ)⟩, ⟨8, (207/128 : ℚ), (13/8 : ℚ), (415/256 : ℚ), (449/65536 : ℚ)⟩, ⟨9, (207/128 : ℚ), (415/256 : ℚ), (829/512 : ℚ), (649/262144 : ℚ)⟩, ⟨10, (207/128 : ℚ), (829/512 : ℚ), (1657/1024 : ℚ), (305/1048576 : ℚ)⟩, ⟨11, (207/128 : ℚ), (1657/1024 : ℚ), (3313/2048 : ℚ), (-3359/4194304 : ℚ)⟩, ⟨12, (3313/2048 : ℚ), (1657/1024 : ℚ), (6627/4096 : ℚ), (-4279/16777216 : ℚ)⟩, ⟨13, (6627/4096 : ℚ), (1657/1024 : ℚ), (13255/8192 : ℚ), (1201/67108864 : ℚ)⟩, ⟨14, (6627/4096 : ℚ), (13255/8192 : ℚ), (26509/16384 : ℚ), (-31831/268435456 : ℚ)⟩, ⟨15, (26509/16384 : ℚ), (13255/8192 : ℚ), (53019/32768 : ℚ), (-54055/1073741824 : ℚ)⟩]
        (by norm_num [f1, pyAbs]) (by norm_num [f1, pyAbs])).trans (by norm_num [f1])
  have s17 : bissecaoLoop f1 (1/1000000 : ℚ) 84 17 (106039/65536 : ℚ) (13255/8192 : ℚ) (-69679/4294967296 : ℚ) (1201/67108864 : ℚ) [⟨1, (1 : ℚ), (2 : ℚ), (3/2 : ℚ), (-1/4 : ℚ)⟩, ⟨2, (3/2 : ℚ), (2 : ℚ), (7/4 : ℚ), (5/16 : ℚ)⟩, ⟨3, (3/2 : ℚ), (7/4 : ℚ), (13/8 : ℚ), (1/64 : ℚ)⟩, ⟨4, (3/2 : ℚ), (13/8 : ℚ), (25/16 : ℚ), (-31/256 : ℚ)⟩, ⟨5, (25/16 : ℚ), (13/8 : ℚ), (51/32 : ℚ), (-55/1024 : ℚ)⟩, ⟨6, (51/32 : ℚ), (13/8 : ℚ), (103/64 : ℚ), (-79/4096 : ℚ)⟩, ⟨7, (103/64 : ℚ), (13/8 : ℚ), (207/128 : ℚ), (-31/16384 : ℚ)⟩, ⟨8, (207/128 : ℚ), (13/8 : ℚ), (415/256 : ℚ), (449/65536 : ℚ)⟩, ⟨9, (207/128 : ℚ), (415/256 : ℚ), (829/512 : ℚ), (649/262144 : ℚ)⟩, ⟨10, (207/128 : ℚ), (829/512 : ℚ), (1657/1024 : ℚ), (305/1048576 : ℚ)⟩, ⟨11, (207/128 : ℚ), (1657/1024 : ℚ), (3313/2048 : ℚ), (-3359/4194304 : ℚ)⟩, ⟨12, (3313/2048 : ℚ), (1657/1024 : ℚ), (6627/4096 : ℚ), (-4279/16777216 : ℚ)⟩, ⟨13, (6627/4096 : ℚ), (1657/1024 : ℚ), (13255/8192 : ℚ), (1201/67108864 : ℚ)⟩, ⟨14, (6627/4096 : ℚ), (13255/8192 : ℚ), (26509/16384 : ℚ), (-31831/268435456 : ℚ)⟩, ⟨15, (26509/16384 : ℚ), (13255/8192 : ℚ), (53019/32768 : ℚ), (-54055/1073741824 : ℚ)⟩, ⟨16, (53019/32768 : ℚ), (13255/8192 : ℚ), (106039/65536 : ℚ), (-69679/4294967296 : ℚ)⟩] =
        (((212079/131072 : ℚ), [⟨1, (1 : ℚ), (2 : ℚ), (3/2 : ℚ), (-1/4 : ℚ)⟩, ⟨2, (3/2 : ℚ), (2 : ℚ), (7/4 : ℚ), (5/16 : ℚ)⟩, ⟨3, (3/2 : ℚ), (7/4 : ℚ), (13/8 : ℚ), (1/64 : ℚ)⟩, ⟨4, (3/2 : ℚ), (13/8 : ℚ), (25/16 : ℚ), (-31/256 : ℚ)⟩, ⟨5, (25/16 : ℚ), (13/8 : ℚ), (51/32 : ℚ), (-55/1024 : ℚ)⟩, ⟨6, (51/32 : ℚ), (13/8 : ℚ), (103/64 : ℚ), (-79/4096 : ℚ)⟩, ⟨7, (103/64 : ℚ), (13/8 : ℚ), (207/128 : ℚ), (-31/16384 : ℚ)⟩, ⟨8, (207/128 : ℚ), (13/8 : ℚ), (415/256 : ℚ), (449/65536 : ℚ)⟩, ⟨9, (207/128 : ℚ), (415/256 : ℚ), (829/512 : ℚ), (649/262144 : ℚ)⟩, ⟨10, (207/128 : ℚ), (829/512 : ℚ), (1657/1024 : ℚ), (305/1048576 : ℚ)⟩, ⟨11, (207/128 : ℚ), (1657/1024 : ℚ), (3313/2048 : ℚ), (-3359/4194304 : ℚ)⟩, ⟨12, (3313/2048 : ℚ), (1657/1024 : ℚ), (6627/4096 : ℚ), (-4279/16777216 : ℚ)⟩, ⟨13, (6627/4096 : ℚ), (1657/1024 : ℚ), (13255/8192 : ℚ), (1201/67108864 : ℚ)⟩, ⟨14, (6627/4096 : ℚ), (13255/8192 : ℚ), (26509/16384 : ℚ), (-31831/268435456 : ℚ)⟩, ⟨15, (26509/16384 : ℚ), (13255/8192 : ℚ), (53019/32768 : ℚ), (-54055/1073741824 : ℚ)⟩, ⟨16, (53019/32768 : ℚ), (13255/8192 : ℚ), (106039/65536 : ℚ), (-69679/4294967296 : ℚ)⟩, ⟨17, (106039/65536 : ℚ), (13255/8192 : ℚ), (212079/131072 : ℚ), (14369/17179869184 : ℚ)⟩]) : ℚ × List IterationRecord) :=
      (bissecaoLoop_succ_stop f1 (1/1000000 : ℚ) 83 17 (106039/65536 : ℚ) (13255/8192 : ℚ) (-69679/4294967296 : ℚ) (1201/67108864 : ℚ) [⟨1, (1 : ℚ), (2 : ℚ), (3/2 : ℚ), (-1/4 : ℚ)⟩, ⟨2, (3/2 : ℚ), (2 : ℚ), (7/4 : ℚ), (5/16 : ℚ)⟩, ⟨3, (3/2 : ℚ), (7/4 : ℚ), (13/8 : ℚ), (1/64 : ℚ)⟩, ⟨4, (3/2 : ℚ), (13/8 : ℚ), (25/16 : ℚ), (-31/256 : ℚ)⟩, ⟨5, (25/16 : ℚ), (13/8 : ℚ), (51/32 : ℚ), (-55/1024 : ℚ)⟩, ⟨6, (51/32 : ℚ), (13/8 : ℚ), (103/64 : ℚ), (-79/4096 : ℚ)⟩, ⟨7, (103/64 : ℚ), (13/8 : ℚ), (207/128 : ℚ), (-31/16384 : ℚ)⟩, ⟨8, (207/128 : ℚ), (13/8 : ℚ), (415/256 : ℚ), (449/65536 : ℚ)⟩, ⟨9, (207/128 : ℚ), (415/256 : ℚ), (829/512 : ℚ), (649/262144 : ℚ)⟩, ⟨10, (207/128 : ℚ), (829/512 : ℚ), (1657/1024 : ℚ), (305/1048576 : ℚ)⟩, ⟨11, (207/128 : ℚ), (1657/1024 : ℚ), (3313/2048 : ℚ), (-3359/4194304 : ℚ)⟩, ⟨12, (3313/2048 : ℚ), (1657/1024 : ℚ), (6627/4096 : ℚ), (-4279/16777216 : ℚ)⟩, ⟨13, (6627/4096 : ℚ), (1657/1024 : ℚ), (13255/8192 : ℚ), (1201/67108864 : ℚ)⟩, ⟨14, (6627/4096 : ℚ), (13255/8192 : ℚ), (26509/16384 : ℚ), (-31831/268435456 : ℚ)⟩, ⟨15, (26509/16384 : ℚ), (13255/8192 : ℚ), (53019/32768 : ℚ), (-54055/1073741824 : ℚ)⟩, ⟨16, (53019/32768 : ℚ), (13255/8192 : ℚ), (106039/65536 : ℚ), (-69679/4294967296 : ℚ)⟩]
        (by norm_num [f1, pyAbs])).trans (by norm_num [f1])
  have hcore : bissecaoCore f1 1 2 (1/1000000) 100 =
      .ok ((212079/131072 : ℚ), [⟨1, (1 : ℚ), (2 : ℚ), (3/2 : ℚ), (-1/4 : ℚ)⟩, ⟨2, (3/2 : ℚ), (2 : ℚ), (7/4 : ℚ), (5/16 : ℚ)⟩, ⟨3, (3/2 : ℚ), (7/4 : ℚ), (13/8 : ℚ), (1/64 : ℚ)⟩, ⟨4, (3/2 : ℚ), (13/8 : ℚ), (25/16 : ℚ), (-31/256 : ℚ)⟩, ⟨5, (25/16 : ℚ), (13/8 : ℚ), (51/32 : ℚ), (-55/1024 : ℚ)⟩, ⟨6, (51/32 : ℚ), (13/8 : ℚ), (103/64 : ℚ), (-79/4096 : ℚ)⟩, ⟨7, (103/64 : ℚ), (13/8 : ℚ), (207/128 : ℚ), (-31/16384 : ℚ)⟩, ⟨8, (207/128 : ℚ), (13/8 : ℚ), (415/256 : ℚ), (449/65536 : ℚ)⟩, ⟨9, (207/128 : ℚ), (415/256 : ℚ), (829/512 : ℚ), (649/262144 : ℚ)⟩, ⟨10, (207/128 : ℚ), (829/512 : ℚ), (1657/1024 : ℚ), (305/1048576 : ℚ)⟩, ⟨11, (207/128 : ℚ), (1657/1024 : ℚ), (3313/2048 : ℚ), (-3359/4194304 : ℚ)⟩, ⟨12, (3313/2048 : ℚ), (1657/1024 : ℚ), (6627/4096 : ℚ), (-4279/16777216 : ℚ)⟩, ⟨13, (6627/4096 : ℚ), (1657/1024 : ℚ), (13255/8192 : ℚ), (1201/67108864 : ℚ)⟩, ⟨14, (6627/4096 : ℚ), (13255/8192 : ℚ), (26509/16384 : ℚ), (-31831/268435456 : ℚ)⟩, ⟨15, (26509/16384 : ℚ), (13255/8192 : ℚ), (53019/32768 : ℚ), (-54055/1073741824 : ℚ)⟩, ⟨16, (53019/32768 : ℚ), (13255/8192 : ℚ), (106039/65536 : ℚ), (-69679/4294967296 : ℚ)⟩, ⟨17, (106039/65536 : ℚ), (13255/8192 : ℚ), (212079/131072 : ℚ), (14369/17179869184 : ℚ)⟩]) := by
    have start : bissecaoCore f1 1 2 (1/1000000) 100 =
        .ok (bissecaoLoop f1 (1/1000000 : ℚ) 100 1 (1 : ℚ) (2 : ℚ) (-1 : ℚ) (1 : ℚ)
          ([] : List IterationRecord)) := by
      norm_num [bissecaoCore, pyAbs, f1]
    rw [start, s1, s2, s3, s4, s5, s6, s7, s8, s9, s10, s11, s12, s13, s14, s15,
      s16, s17]
  refine ⟨?_, by norm_num [← pyAbs_eq_abs, pyAbs], by norm_num⟩
  unfold bissecao
  rw [hcore]
  rfl
